import Mathlib

/-!
Verification of the banana-browser navigation/session core.

The definitions below are a shallow embedding of src/browser.ts (final
snapshot) and src/api-processors.ts.  External effects (HTTP fetches and the
two generative-AI providers) are modelled as explicit environment inputs:
every operation takes the outcome of its external calls as a parameter and
returns the updated browser together with a log of the image-generation
requests it issued.  JavaScript numbers are modelled as Nat / rationals,
JavaScript falsy-or defaults (x || d) by the jsOr* helpers, and nullable
fields by Option.
-/

namespace BananaSpec

/-- JavaScript `a || b` on numbers coming from optional fields: `0`,
`undefined` and `null` all fall through to the default. -/
def jsOrNat (a : Option Nat) (b : Nat) : Nat :=
  match a with
  | some n => if n = 0 then b else n
  | none => b

/-- JavaScript `a || b` on strings coming from optional fields: the empty
string, `undefined` and `null` all fall through to the default. -/
def jsOrStr (a : Option String) (b : String) : String :=
  match a with
  | some s => if s = "" then b else s
  | none => b

/-- JavaScript truthiness of an optional string value. -/
def jsTruthyStr (a : Option String) : Bool :=
  match a with
  | some s => !(s == "")
  | none => false

/-- JavaScript `a || null` on an optional string (empty string becomes null). -/
def jsOrNullStr (a : Option String) : Option String :=
  match a with
  | some s => if s = "" then none else some s
  | none => none

/-! ## Models, style presets, pricing (browser.ts lines 451-755) -/

inductive Provider where
  | gemini
  | openai
deriving DecidableEq, Repr

structure ModelConfig where
  provider : Provider
  model : String
  name : String
deriving DecidableEq, Repr

/-- Keys of the IMAGE_MODELS record. -/
inductive ImageModel where
  | flash
  | pro
  | gptImage
  | gptImageMini
deriving DecidableEq, Repr

/-- The literal key string of an IMAGE_MODELS entry (used in the cache key). -/
def ImageModel.key : ImageModel → String
  | .flash => "flash"
  | .pro => "pro"
  | .gptImage => "gpt-image"
  | .gptImageMini => "gpt-image-mini"

def IMAGE_MODELS : ImageModel → ModelConfig
  | .flash => ⟨.gemini, "gemini-2.5-flash-image", "Nano Banana"⟩
  | .pro => ⟨.gemini, "gemini-3-pro-image-preview", "Nano Banana Pro"⟩
  | .gptImage => ⟨.openai, "gpt-image-1.5", "GPT Image 1.5"⟩
  | .gptImageMini => ⟨.openai, "gpt-image-1-mini", "GPT Image Mini"⟩

def STYLE_PRESET_KEYS : List String :=
  ["modern", "geocities", "brutalist", "vaporwave", "newspaper", "hacker"]

def stylePresetText : String → String
  | "modern" => "A modern, clean, professional website with good typography and spacing"
  | "geocities" => "90s Geocities style with animated GIFs, bright colors, comic sans, starry backgrounds, under construction signs, visitor counters, and marquee text"
  | "brutalist" => "Brutalist web design with raw HTML aesthetic, monospace fonts, stark black and white, no images, dense text"
  | "vaporwave" => "Vaporwave aesthetic with pink/cyan/purple gradients, retro 80s graphics, glitch effects, Japanese text, marble busts"
  | "newspaper" => "Classic newspaper layout with serif fonts, columns, black and white, headline hierarchy like New York Times"
  | "hacker" => "Dark hacker terminal aesthetic with green text on black, monospace font, command line interface look"
  | s => s

/-- Property names an object literal inherits from Object.prototype; the JS
in-operator used by setStyle answers true for these too (browsers include the
Annex B getter and setter definers). -/
def OBJECT_PROTO_PROPS : List String :=
  ["constructor", "hasOwnProperty", "isPrototypeOf", "propertyIsEnumerable",
   "toLocaleString", "toString", "valueOf", "__proto__",
   "__defineGetter__", "__defineSetter__", "__lookupGetter__", "__lookupSetter__"]

/-- Runtime value of the currentStyle field: the TypeScript declaration says
string, but the in-test of setStyle (browser.ts line 564) also matches
properties inherited from Object.prototype, and the indexing on line 565 then
installs the inherited member (a built-in function, or the prototype object
itself for __proto__) rather than a string. -/
inductive StyleVal where
  | str (s : String)
  | protoMember (name : String)
deriving DecidableEq, Repr

/-- String coercion of the style value, as the template literals embedding it
into the cache key and the prompt perform it; an inherited built-in renders as
host-defined NativeFunction text (object form for the __proto__ accessor),
written here as the common engines print it. -/
def StyleVal.coerced : StyleVal → String
  | .str s => s
  | .protoMember "__proto__" => "[object Object]"
  | .protoMember name => "function " ++ name ++ "() \x7b [native code] \x7d"

/-- Body of setStyle (browser.ts lines 562-570): the in-test resolves the six
own preset keys to their descriptions but also matches the members inherited
from Object.prototype, which the preset branch then installs; only a string
outside both sets is installed verbatim. -/
def resolveStyle (style : String) : StyleVal :=
  if style ∈ STYLE_PRESET_KEYS then .str (stylePresetText style)
  else if style ∈ OBJECT_PROTO_PROPS then .protoMember style
  else .str style

/-- Cache key for generated images (browser.ts lines 481-483). -/
def getCacheKey (url model style : String) : String :=
  url ++ "|" ++ model ++ "|" ++ style

/-! Pricing per 1M tokens in USD (browser.ts lines 719-755); JS floating
point literals are modelled as exact rationals. -/

structure GeminiImagePricing where
  input : ℚ
  output : ℚ
  imageOutput : ℚ
deriving DecidableEq, Repr

structure OpenAIImagePricing where
  input : ℚ
  imageInput : ℚ
  imageOutput : ℚ
deriving DecidableEq, Repr

structure TextPricing where
  input : ℚ
  output : ℚ
deriving DecidableEq, Repr

def PRICING_flash : GeminiImagePricing :=
  ⟨(0.075 : ℚ) / 1000000, (0.3 : ℚ) / 1000000, (30 : ℚ) / 1000000⟩

def PRICING_pro : GeminiImagePricing :=
  ⟨(2.0 : ℚ) / 1000000, (12.0 : ℚ) / 1000000, (120 : ℚ) / 1000000⟩

def PRICING_gptImage : OpenAIImagePricing :=
  ⟨(5.0 : ℚ) / 1000000, (8.0 : ℚ) / 1000000, (32.0 : ℚ) / 1000000⟩

def PRICING_gptImageMini : OpenAIImagePricing :=
  ⟨(2.5 : ℚ) / 1000000, (2.5 : ℚ) / 1000000, (8.0 : ℚ) / 1000000⟩

def PRICING_text : TextPricing :=
  ⟨(0.075 : ℚ) / 1000000, (0.3 : ℚ) / 1000000⟩

def PRICING_gpt5mini : TextPricing :=
  ⟨(0.25 : ℚ) / 1000000, (1.0 : ℚ) / 1000000⟩

/-- Gemini-shaped view of PRICING[currentModelKey]; OpenAI keys never reach
this view because trackUsage branches on the provider first. -/
def geminiImagePricingOf : ImageModel → GeminiImagePricing
  | .flash => PRICING_flash
  | .pro => PRICING_pro
  | _ => PRICING_flash

/-- OpenAI-shaped view of PRICING[currentModelKey]; Gemini keys never reach
this view because trackUsage branches on the provider first. -/
def openaiImagePricingOf : ImageModel → OpenAIImagePricing
  | .gptImage => PRICING_gptImage
  | .gptImageMini => PRICING_gptImageMini
  | _ => PRICING_gptImage

/-! ## Usage metadata and stats -/

structure TokenDetails where
  text_tokens : Option Nat
  image_tokens : Option Nat
deriving DecidableEq, Repr

structure UsageMetadata where
  promptTokenCount : Option Nat
  candidatesTokenCount : Option Nat
  input_tokens : Option Nat
  output_tokens : Option Nat
  input_tokens_details : Option TokenDetails
deriving DecidableEq, Repr

structure UsageStats where
  imageGenerations : Nat
  clickInterpretations : Nat
  totalInputTokens : Nat
  totalOutputTokens : Nat
  estimatedCost : ℚ
deriving DecidableEq, Repr

def UsageStats.initial : UsageStats := ⟨0, 0, 0, 0, 0⟩

/-- Input tokens: usageMetadata?.promptTokenCount || usageMetadata?.input_tokens || 0. -/
def metaInputTokens (m : Option UsageMetadata) : Nat :=
  jsOrNat (m.bind (·.promptTokenCount)) (jsOrNat (m.bind (·.input_tokens)) 0)

/-- Output tokens: usageMetadata?.candidatesTokenCount || usageMetadata?.output_tokens || 0. -/
def metaOutputTokens (m : Option UsageMetadata) : Nat :=
  jsOrNat (m.bind (·.candidatesTokenCount)) (jsOrNat (m.bind (·.output_tokens)) 0)

def metaTextInputTokens (m : Option UsageMetadata) : Nat :=
  jsOrNat ((m.bind (·.input_tokens_details)).bind (·.text_tokens)) 0

def metaImageInputTokens (m : Option UsageMetadata) : Nat :=
  jsOrNat ((m.bind (·.input_tokens_details)).bind (·.image_tokens)) 0

def textCost (p : TextPricing) (inTok outTok : Nat) : ℚ :=
  inTok * p.input + outTok * p.output

def geminiImageCost (p : GeminiImagePricing) (inTok outTok : Nat) : ℚ :=
  inTok * p.input + outTok * p.imageOutput

def openaiImageCost (p : OpenAIImagePricing) (textIn imgIn outTok : Nat) : ℚ :=
  textIn * p.input + imgIn * p.imageInput + outTok * p.imageOutput

/-! ## Hacker News raw shapes and processors (api-processors.ts lines 159-282) -/

/-- Raw Hacker News item as returned by the firebase API; every field may be
absent. -/
structure RawHNStory where
  id : Option Nat
  title : Option String
  url : Option String
  by_ : Option String
  score : Option Nat
  descendants : Option Nat
  kids : Option (List Nat)
  text : Option String
deriving DecidableEq, Repr

structure RawHNComment where
  id : Option Nat
  by_ : Option String
  text : Option String
  dead : Option Bool
  deleted : Option Bool
deriving DecidableEq, Repr

structure HNStory where
  id : Nat
  title : String
  url : Option String
  by_ : String
  score : Nat
  commentCount : Nat
  apiUrl : String
deriving DecidableEq, Repr

structure HNComment where
  id : Nat
  by_ : String
  text : String
deriving DecidableEq, Repr

structure HNFrontPageResponse where
  source : String
  type : String
  stories : List HNStory
deriving DecidableEq, Repr

structure HNStoryWithCommentsResponse where
  source : String
  type : String
  story : HNStory
  comments : List HNComment
deriving DecidableEq, Repr

/-- JavaScript template interpolation of a possibly-undefined number. -/
def jsNumStr (a : Option Nat) : String :=
  match a with
  | some n => toString n
  | none => "undefined"

/-- Per-item locator constructed by the HN processors. -/
def hnItemUrl (id : Option Nat) : String :=
  "https://hacker-news.firebaseio.com/v0/item/" ++ jsNumStr id ++ ".json"

def processHNStoryRecord (story : RawHNStory) : HNStory :=
  { id := story.id.getD 0
    title := story.title.getD ""
    url := jsOrNullStr story.url
    by_ := story.by_.getD ""
    score := story.score.getD 0
    commentCount := jsOrNat story.descendants ((story.kids.map List.length).getD 0)
    apiUrl := hnItemUrl story.id }

def processHNFrontPage (stories : List RawHNStory) : HNFrontPageResponse :=
  { source := "Hacker News"
    type := "front_page"
    stories := stories.map processHNStoryRecord }

def processHNStoryWithComments (story : RawHNStory) (comments : List RawHNComment) :
    HNStoryWithCommentsResponse :=
  { source := "Hacker News"
    type := "story_with_comments"
    story := processHNStoryRecord story
    comments := comments.filterMap fun c =>
      if c.dead.getD false || c.deleted.getD false then none
      else some { id := c.id.getD 0, by_ := jsOrStr c.by_ "[deleted]", text := c.text.getD "" } }

/-! ## API data carried by the browser -/

structure EspnImageRef where
  url : Option String
  type : Option String
  caption : Option String
  alt : Option String
deriving DecidableEq, Repr

structure EspnArticleData where
  headline : Option String
  imageUrl : Option String
  images : Option (List EspnImageRef)
deriving DecidableEq, Repr

/-- Normalized API payloads stored in browser state.  Payload shapes that the
claims never inspect are collapsed into the rawData constructor. -/
inductive ApiData where
  | hnFront (r : HNFrontPageResponse)
  | hnStory (r : HNStoryWithCommentsResponse)
  | espnNews (articles : List EspnArticleData)
  | rawData (payload : String)
deriving DecidableEq, Repr

/-- Network-level HN front page fetch (browser.ts lines 844-865): take the
first 15 ids, fetch each item through the itemOf oracle (none models a null
json body, dropped by filter(Boolean)), then normalize. -/
def fetchHackerNews (ids : List Nat) (itemOf : Nat → Option RawHNStory) : HNFrontPageResponse :=
  processHNFrontPage ((ids.take 15).filterMap itemOf)

/-- Network-level HN story fetch (browser.ts lines 867-893): story already
fetched, then the first 10 kid comments through the commentOf oracle. -/
def fetchHackerNewsItem (story : RawHNStory) (commentOf : Nat → Option RawHNComment) :
    HNStoryWithCommentsResponse :=
  processHNStoryWithComments story (((story.kids.getD []).take 10).filterMap commentOf)

structure ImageInfo where
  url : String
  description : String
deriving DecidableEq, Repr

/-- Extraction of reference-image candidates from API data (browser.ts lines
660-717).  Only the processed-ESPN articles branch can fire for the payload
shapes modelled here; the raw-ESPN headlines branch belongs to a payload shape
collapsed into rawData and is therefore never taken. -/
def extractImageInfo : ApiData → List ImageInfo
  | .espnNews articles =>
    (articles.filterMap fun a =>
      if jsTruthyStr a.imageUrl then
        some ⟨a.imageUrl.getD "", jsOrStr a.headline "Article image"⟩
      else
        match a.images with
        | some imgs =>
          let headerImg := imgs.find? fun im => im.type == some "header"
          match headerImg.orElse (fun _ => imgs.head?) with
          | some im =>
            match im.url with
            | some u =>
              if u = "" then none
              else some ⟨u, jsOrStr im.caption (jsOrStr im.alt (jsOrStr a.headline "Article image"))⟩
            | none => none
          | none => none
        | none => none).take 5
  | _ => []

/-- Stands for JSON.stringify(apiData, null, 2).  The theorems never inspect
prompt text, so a compact structural rendering is used. -/
def serializeApiData : ApiData → String
  | .hnFront r =>
    "\x7b \"source\": \"" ++ r.source ++ "\", \"type\": \"" ++ r.type ++ "\", \"stories\": [" ++
      String.intercalate ", " (r.stories.map fun s =>
        "\x7b \"id\": " ++ toString s.id ++ ", \"title\": \"" ++ s.title ++ "\", \"apiUrl\": \"" ++
          s.apiUrl ++ "\" \x7d") ++ "] \x7d"
  | .hnStory r =>
    "\x7b \"source\": \"" ++ r.source ++ "\", \"type\": \"" ++ r.type ++ "\", \"story\": \x7b \"id\": " ++
      toString r.story.id ++ ", \"title\": \"" ++ r.story.title ++ "\" \x7d, \"comments\": [" ++
      String.intercalate ", " (r.comments.map fun c =>
        "\x7b \"id\": " ++ toString c.id ++ ", \"by\": \"" ++ c.by_ ++ "\" \x7d") ++ "] \x7d"
  | .espnNews articles =>
    "\x7b \"articles\": [" ++
      String.intercalate ", " (articles.map fun a =>
        "\x7b \"headline\": \"" ++ a.headline.getD "" ++ "\" \x7d") ++ "] \x7d"
  | .rawData payload => payload

/-! ## Browser state (browser.ts lines 413-531) -/

structure BrowserState where
  loading : Bool
  status : String
  currentUrl : Option String
  currentImage : Option String
  currentApiData : Option ApiData
  error : Option String
  usage : UsageStats
  scrollIndex : Nat
  scrollDepth : Nat
deriving DecidableEq, Repr

structure HistoryEntry where
  url : String
  apiData : ApiData
  image : String
deriving DecidableEq, Repr

structure CacheEntry where
  image : String
  apiData : ApiData
deriving DecidableEq, Repr

structure Browser where
  hasGeminiKey : Bool
  hasOpenAIKey : Bool
  currentModelKey : ImageModel
  currentStyle : StyleVal
  state : BrowserState
  history : List HistoryEntry
  historyIndex : Int
  sessionImage : Option String
  sessionClickContext : Bool
  scrollStack : List String
  isScrollingDown : Bool
  imageCache : List (String × CacheEntry)
deriving DecidableEq, Repr

/-- Constructor state of BananaBrowser (browser.ts lines 485-531); the image
cache is a module-level Map, carried here per browser since the claims only
concern a single instance. -/
def initBrowser (hasGeminiKey hasOpenAIKey : Bool) (model : ImageModel) : Browser :=
  { hasGeminiKey := hasGeminiKey
    hasOpenAIKey := hasOpenAIKey
    currentModelKey := model
    currentStyle := .str (stylePresetText "modern")
    state :=
      { loading := false
        status := "Ready"
        currentUrl := none
        currentImage := none
        currentApiData := none
        error := none
        usage := UsageStats.initial
        scrollIndex := 0
        scrollDepth := 1 }
    history := []
    historyIndex := -1
    sessionImage := none
    sessionClickContext := false
    scrollStack := []
    isScrollingDown := false
    imageCache := [] }

/-- setStyle (browser.ts lines 562-570). -/
def Browser.setStyle (b : Browser) (style : String) : Browser :=
  { b with currentStyle := resolveStyle style }

/-- Map.get on the image cache. -/
def cacheLookup (cache : List (String × CacheEntry)) (key : String) : Option CacheEntry :=
  cache.lookup key

/-- Map.set on the image cache (new binding shadows any older one). -/
def cacheInsert (cache : List (String × CacheEntry)) (key : String) (e : CacheEntry) :
    List (String × CacheEntry) :=
  (key, e) :: cache

inductive UsageType where
  | image
  | text
deriving DecidableEq, Repr

/-- Pricing used for click interpretation: Gemini text pricing when a Gemini
key is present, otherwise gpt-5-mini pricing (browser.ts line 798). -/
def textPricingOf (b : Browser) : TextPricing :=
  if b.hasGeminiKey then PRICING_text else PRICING_gpt5mini

/-- trackUsage (browser.ts lines 757-818). -/
def trackUsage (b : Browser) (t : UsageType) (m : Option UsageMetadata) : Browser :=
  let inputTokens := metaInputTokens m
  let outputTokens := metaOutputTokens m
  let u := b.state.usage
  let u' :=
    match t with
    | .image =>
      let costIncrement :=
        match (IMAGE_MODELS b.currentModelKey).provider with
        | .openai =>
          openaiImageCost (openaiImagePricingOf b.currentModelKey)
            (metaTextInputTokens m) (metaImageInputTokens m) outputTokens
        | .gemini =>
          geminiImageCost (geminiImagePricingOf b.currentModelKey) inputTokens outputTokens
      { u with imageGenerations := u.imageGenerations + 1
               totalInputTokens := u.totalInputTokens + inputTokens
               totalOutputTokens := u.totalOutputTokens + outputTokens
               estimatedCost := u.estimatedCost + costIncrement }
    | .text =>
      let p := textPricingOf b
      { u with clickInterpretations := u.clickInterpretations + 1
               totalInputTokens := u.totalInputTokens + inputTokens
               totalOutputTokens := u.totalOutputTokens + outputTokens
               estimatedCost := u.estimatedCost + textCost p inputTokens outputTokens }
  { b with state := { b.state with usage := u' } }

/-! ## Rate-limit message matching

The catch block of navigate runs message.match of the pattern "retry in"
followed by captured digits, case-insensitively (browser.ts line 1125). -/

/-- Leading maximal digit run of a character list. -/
def leadingDigits (cs : List Char) : List Char :=
  cs.takeWhile Char.isDigit

/-- Attempt to match "retry in " (case-insensitive) plus at least one digit at
the head of the list, returning the captured digits. -/
def retryMatchHere (cs : List Char) : Option String :=
  match cs with
  | c1 :: c2 :: c3 :: c4 :: c5 :: c6 :: c7 :: c8 :: c9 :: rest =>
    if ([c1, c2, c3, c4, c5, c6, c7, c8, c9].map Char.toLower) = "retry in ".data then
      let ds := leadingDigits rest
      if ds.isEmpty then none else some (String.mk ds)
    else none
  | _ => none

def retrySecondsAux : List Char → Option String
  | [] => none
  | c :: rest =>
    match retryMatchHere (c :: rest) with
    | some ds => some ds
    | none => retrySecondsAux rest

/-- Captured group of message.match for the retry pattern, or none. -/
def rateLimitSeconds (message : String) : Option String :=
  retrySecondsAux message.data

/-! ## Data URLs and generation requests -/

/-- Match of a base64 data URL against the pattern used throughout browser.ts:
"data:" then a nonempty no-semicolon mime type, then ";base64," then a
nonempty remainder free of line terminators.  Returns (mimeType, data). -/
def parseDataUrl (s : String) : Option (String × String) :=
  let cs := s.data
  if cs.take 5 = "data:".data then
    let rest := cs.drop 5
    let mime := rest.takeWhile (· ≠ ';')
    let afterMime := rest.dropWhile (· ≠ ';')
    if mime.isEmpty then none
    else if afterMime.take 8 = ";base64,".data then
      let payload := afterMime.drop 8
      if payload.isEmpty ∨ payload.any (fun c => c = '\n' ∨ c = '\r') then none
      else some (String.mk mime, String.mk payload)
    else none
  else none

structure RefImage where
  dataUrl : String
  mimeType : String
  description : String
deriving DecidableEq, Repr

/-- fetchReferenceImages (browser.ts lines 622-655): iterate over the first
maxImages candidates, keep the successful fetches in order; the fetchImg
oracle stands for the network fetch plus base64 conversion. -/
def fetchReferenceImages (info : List ImageInfo)
    (fetchImg : String → Option (String × String)) (maxImages : Nat) : List RefImage :=
  (info.take maxImages).filterMap fun i =>
    (fetchImg i.url).map fun p => ⟨p.1, p.2, i.description⟩

/-- Content part of a Gemini generateContent request. -/
inductive ContentPart where
  | inline (mimeType data : String)
  | text (t : String)
deriving DecidableEq, Repr

/-- Record of one image-generation request issued to a provider.  The
scrollStackAtCall field is ghost instrumentation: it snapshots the scroll
stack at the moment the request is issued. -/
structure GenRequest where
  provider : Provider
  model : String
  prompt : String
  referenceImages : List RefImage
  sessionImage : Option String
  usedScrollContext : Bool
  usedClickContext : Bool
  scrollStackAtCall : List String
deriving DecidableEq, Repr

structure InlineData where
  mimeType : Option String
  data : String
deriving DecidableEq, Repr

structure GeminiPart where
  inlineData : Option InlineData
deriving DecidableEq, Repr

structure GeminiResponse where
  usageMetadata : Option UsageMetadata
  parts : List GeminiPart
deriving DecidableEq, Repr

structure OpenAIImageResponse where
  ok : Bool
  status : Nat
  errorMessage : Option String
  usage : Option UsageMetadata
  b64Json : Option String
deriving DecidableEq, Repr

/-- Environment for one generatePageImage run: the outcome of the reference
image fetches and the provider response that the external service returns. -/
structure GenEnv where
  fetchImg : String → Option (String × String)
  gemini : GeminiResponse
  openaiResp : OpenAIImageResponse

/-- buildImagePrompt (browser.ts lines 1430-1474). -/
def buildImagePrompt (b : Browser) (apiData : ApiData) : String :=
  let dataStrRaw := serializeApiData apiData
  let dataStr :=
    if dataStrRaw.length > 10000 then
      String.mk (dataStrRaw.data.take 10000) ++ "\n... (truncated)"
    else dataStrRaw
  let prompt :=
    "# TASK\nVisualize the data below as an image. The visual style MUST completely transform how the content appears - not just as a background or frame, but fundamentally changing how the text and information is rendered.\n\n# VISUAL STYLE\n" ++
    b.currentStyle.coerced ++ "\n\n# DATA\n" ++ dataStr ++
    "\n\n# REMINDER\nApply the visual style to ALL text, not just the title. The style should transform how the entire content appears and feels."
  match b.sessionImage with
  | none => prompt
  | some _ =>
    if b.isScrollingDown then
      prompt ++ "\n\n# SCROLL CONTEXT\nThe user is scrolling down. The provided image shows the previous view. Generate the NEXT portion of the page:\n- Continue from where the previous image ended\n- The bottom ~20% of the previous view should be the top of this new view\n- Show NEW content that comes after what was visible\n- Maintain visual consistency (same layout, colors, typography)"
    else if b.sessionClickContext then
      prompt ++ "\n\n# NAVIGATION CONTEXT\nThe provided image shows the previous page with a RED ARROW indicating where the user clicked. This led to the current page. Maintain visual consistency with the previous page (same layout style, colors, typography)."
    else
      prompt ++ "\n\n# CONTINUITY CONTEXT\nThe provided image shows the previous page state. Maintain visual consistency (same layout style, colors, typography)."

/-- Reference-image preamble prepended to the prompt when reference images are
present (browser.ts lines 1196-1208). -/
def buildFullPrompt (basePrompt : String) (referenceImages : List RefImage) : String :=
  if referenceImages.isEmpty then basePrompt
  else
    let descriptions := String.intercalate "\n"
      ((referenceImages.enum.map fun p => "  " ++ toString (p.1 + 1) ++ ". " ++ p.2.description))
    "# REFERENCE IMAGES\n" ++ toString referenceImages.length ++
      " photo(s) from the actual content are provided:\n" ++ descriptions ++
      "\n\nUse these as inspiration. You have creative freedom - incorporate them directly, stylize them to match the visual style, or reimagine them artistically. The visual style takes precedence over literal reproduction.\n\n" ++
      basePrompt

/-- Result of one generatePageImage run. -/
structure GenOut where
  browser : Browser
  result : Except String String
  calls : List GenRequest
deriving Repr

/-- Ghost record of the request a provider call issues, snapshotting the
session fields the claims reason about. -/
def mkGenRequest (b : Browser) (prompt : String) (refs : List RefImage) : GenRequest :=
  { provider := (IMAGE_MODELS b.currentModelKey).provider
    model := (IMAGE_MODELS b.currentModelKey).model
    prompt := prompt
    referenceImages := refs
    sessionImage := b.sessionImage
    usedScrollContext := b.isScrollingDown
    usedClickContext := b.sessionClickContext
    scrollStackAtCall := b.scrollStack }

/-- Image extraction from a Gemini response: first part with inlineData wins,
otherwise the call fails (browser.ts lines 1289-1298). -/
def extractGeminiImage (parts : List GeminiPart) : Except String String :=
  match parts.findSome? (·.inlineData) with
  | some d => .ok ("data:" ++ d.mimeType.getD "image/png" ++ ";base64," ++ d.data)
  | none => .error "No image generated in response"

/-- generateWithGemini (browser.ts lines 1230-1299). -/
def generateWithGemini (b : Browser) (prompt : String) (refs : List RefImage)
    (env : GenEnv) : GenOut :=
  if !b.hasGeminiKey then ⟨b, .error "Gemini API key not configured", []⟩
  else
    let refParts := refs.filterMap fun img =>
      (parseDataUrl img.dataUrl).map fun p => ContentPart.inline p.1 p.2
    let sessionParts :=
      match b.sessionImage with
      | some s =>
        match parseDataUrl s with
        | some p => [ContentPart.inline p.1 p.2]
        | none => []
      | none => []
    let _contents := refParts ++ sessionParts ++ [ContentPart.text prompt]
    let b' := trackUsage b .image env.gemini.usageMetadata
    ⟨b', extractGeminiImage env.gemini.parts, [mkGenRequest b prompt refs]⟩

/-- Shared response handling of the two OpenAI endpoints (browser.ts lines
1321-1356 and 1373-1428): non-2xx raises, usage (when present) is tracked,
then the base64 image is extracted or the call fails. -/
def handleOpenAIResponse (b : Browser) (call : GenRequest) (resp : OpenAIImageResponse) : GenOut :=
  if !resp.ok then
    ⟨b, .error (jsOrStr resp.errorMessage ("OpenAI API error: " ++ toString resp.status)), [call]⟩
  else
    let b' :=
      match resp.usage with
      | some u => trackUsage b .image (some u)
      | none => b
    match resp.b64Json with
    | some b64 => ⟨b', .ok ("data:image/png;base64," ++ b64), [call]⟩
    | none => ⟨b', .error "No image generated in OpenAI response", [call]⟩

/-- generateWithOpenAI (browser.ts lines 1301-1319): the edits endpoint is
used whenever a session image or reference images are present, otherwise the
generations endpoint; both are collapsed into handleOpenAIResponse since the
request assembly differs only in attachments. -/
def generateWithOpenAI (b : Browser) (prompt : String) (refs : List RefImage)
    (env : GenEnv) : GenOut :=
  if !b.hasOpenAIKey then ⟨b, .error "OpenAI API key not configured", []⟩
  else
    handleOpenAIResponse b (mkGenRequest b prompt refs) env.openaiResp

/-- generatePageImage (browser.ts lines 1186-1228). -/
def generatePageImage (b : Browser) (apiData : ApiData) (env : GenEnv) : GenOut :=
  let imageInfo := extractImageInfo apiData
  let referenceImages :=
    if imageInfo.isEmpty then [] else fetchReferenceImages imageInfo env.fetchImg 5
  let fullPrompt := buildFullPrompt (buildImagePrompt b apiData) referenceImages
  match (IMAGE_MODELS b.currentModelKey).provider with
  | .openai => generateWithOpenAI b fullPrompt referenceImages env
  | .gemini => generateWithGemini b fullPrompt referenceImages env

/-! ## Navigation and session operations (browser.ts lines 895-1140) -/

/-- Environment for one navigate run: the outcome of fetchApiData and, on a
cache miss, the generation environment. -/
structure NavEnv where
  fetchResult : Except String ApiData
  gen : GenEnv

/-- Cache key consulted and written by navigate (browser.ts line 1062): note
it is built from the model KEY string, not the model name, and from the
resolved currentStyle text. -/
def navCacheKey (b : Browser) (url : String) : String :=
  getCacheKey url b.currentModelKey.key b.currentStyle.coerced

/-- Catch block of navigate (browser.ts lines 1122-1139): a rate-limit shaped
message is rewritten, everything else is surfaced verbatim. -/
def navigateErrorStep (b : Browser) (message : String) : Browser :=
  match rateLimitSeconds message with
  | some n =>
    { b with state := { b.state with
        loading := false
        status := "Error"
        error := some ("Rate limited. Please wait " ++ n ++ " seconds and try again.") } }
  | none =>
    { b with state := { b.state with
        loading := false
        status := "Error"
        error := some message } }

/-- Session clearing performed when navigate is called with freshStart
(browser.ts lines 1056-1059). -/
def freshClear (b : Browser) (freshStart : Bool) : Browser :=
  if freshStart then { b with sessionImage := none, scrollStack := [] } else b

/-- Cache-hit branch of navigate (browser.ts lines 1064-1082). -/
def navigateCached (b : Browser) (url : String) (cached : CacheEntry) : Browser :=
  let history' := b.history.take (b.historyIndex + 1).toNat ++
    [⟨url, cached.apiData, cached.image⟩]
  { b with
      history := history'
      historyIndex := (history'.length : Int) - 1
      sessionImage := some cached.image
      scrollStack := [cached.image]
      state := { b.state with
        loading := false
        status := "Page loaded (cached)"
        currentUrl := some url
        currentImage := some cached.image
        currentApiData := some cached.apiData
        scrollIndex := 0
        scrollDepth := 1
        error := none } }

/-- Loading transition at the start of a cache miss (browser.ts lines
1084-1089). -/
def navigateLoading (b : Browser) (url : String) : Browser :=
  { b with state := { b.state with
      loading := true
      status := "Fetching data..."
      currentUrl := some url
      error := none } }

/-- Status transition once the API data arrived (browser.ts lines 1095-1098). -/
def navigateGenerating (b : Browser) (apiData : ApiData) : Browser :=
  { b with state := { b.state with
      status := "Generating webpage image..."
      currentApiData := some apiData } }

/-- Success tail of navigate (browser.ts lines 1103-1121). -/
def navigateSuccess (b : Browser) (url cacheKey : String) (apiData : ApiData)
    (image : String) : Browser :=
  let history' := b.history.take (b.historyIndex + 1).toNat ++ [⟨url, apiData, image⟩]
  { b with
      imageCache := cacheInsert b.imageCache cacheKey ⟨image, apiData⟩
      sessionImage := some image
      scrollStack := [image]
      history := history'
      historyIndex := (history'.length : Int) - 1
      state := { b.state with
        loading := false
        status := "Page loaded"
        currentImage := some image
        scrollIndex := 0
        scrollDepth := 1 } }

/-- Cache-miss branch of navigate: fetch, generate, then succeed or fall into
the catch block. -/
def navigateMiss (b : Browser) (url cacheKey : String) (env : NavEnv) :
    Browser × List GenRequest :=
  let b := navigateLoading b url
  match env.fetchResult with
  | .error message => (navigateErrorStep b message, [])
  | .ok apiData =>
    let b := navigateGenerating b apiData
    let g := generatePageImage b apiData env.gen
    match g.result with
    | .error message => (navigateErrorStep g.browser message, g.calls)
    | .ok image => (navigateSuccess g.browser url cacheKey apiData image, g.calls)

/-- navigate (browser.ts lines 1054-1140). -/
def navigate (b : Browser) (url : String) (freshStart : Bool) (env : NavEnv) :
    Browser × List GenRequest :=
  let b := freshClear b freshStart
  let cacheKey := navCacheKey b url
  match cacheLookup b.imageCache cacheKey with
  | some cached => (navigateCached b url cached, [])
  | none => navigateMiss b url cacheKey env

/-- goBack (browser.ts lines 899-914).  When the predecessor entry is missing
(impossible while historyIndex stays within the list) the JS code would fault
reading entry.url; that branch is modelled as a no-op. -/
def goBack (b : Browser) : Browser :=
  if 0 < b.historyIndex then
    match b.history.get? (b.historyIndex - 1).toNat with
    | some entry =>
      { b with
          historyIndex := b.historyIndex - 1
          scrollStack := [entry.image]
          sessionImage := some entry.image
          state := { b.state with
            currentUrl := some entry.url
            currentImage := some entry.image
            currentApiData := some entry.apiData
            scrollIndex := 0
            scrollDepth := 1
            status := "Navigated back" } }
    | none => b
  else b

/-- goForward (browser.ts lines 916-931); same missing-entry convention as
goBack. -/
def goForward (b : Browser) : Browser :=
  if b.historyIndex < (b.history.length : Int) - 1 then
    match b.history.get? (b.historyIndex + 1).toNat with
    | some entry =>
      { b with
          historyIndex := b.historyIndex + 1
          scrollStack := [entry.image]
          sessionImage := some entry.image
          state := { b.state with
            currentUrl := some entry.url
            currentImage := some entry.image
            currentApiData := some entry.apiData
            scrollIndex := 0
            scrollDepth := 1
            status := "Navigated forward" } }
    | none => b
  else b

def scrollStatus (index len : Nat) : String :=
  "Scroll position " ++ toString (index + 1) ++ " of " ++ toString len

/-- scrollUp (browser.ts lines 936-950): pure index decrement and image swap
from the stack; the empty call log witnesses that no generation request is
issued. -/
def scrollUp (b : Browser) : Browser × List GenRequest :=
  if b.state.scrollIndex = 0 ∨ jsTruthyStr b.state.currentUrl = false then (b, [])
  else
    let newIndex := b.state.scrollIndex - 1
    let previousImage := b.scrollStack.get? newIndex
    ({ b with
        sessionImage := previousImage
        state := { b.state with
          scrollIndex := newIndex
          currentImage := previousImage
          status := scrollStatus newIndex b.scrollStack.length } }, [])

/-- Loading transition and scroll context set-up on the generating path of
scrollDown (browser.ts lines 975-983). -/
def scrollDownGenBase (b : Browser) : Browser :=
  let b1 := { b with state := { b.state with loading := true, status := "Scrolling down..." } }
  { b1 with sessionImage := b1.state.currentImage, isScrollingDown := true }

/-- scrollDown (browser.ts lines 955-1009). -/
def scrollDown (b : Browser) (env : GenEnv) : Browser × List GenRequest :=
  if jsTruthyStr b.state.currentUrl = false ∨ b.state.currentApiData = none
      ∨ jsTruthyStr b.state.currentImage = false
  then (b, [])
  else
    let newIndex := b.state.scrollIndex + 1
    if h : newIndex < b.scrollStack.length then
      let cachedImage := b.scrollStack.get ⟨newIndex, h⟩
      ({ b with
          sessionImage := some cachedImage
          state := { b.state with
            scrollIndex := newIndex
            currentImage := some cachedImage
            status := scrollStatus newIndex b.scrollStack.length } }, [])
    else
      let apiData := b.state.currentApiData.getD (.rawData "")
      let b := scrollDownGenBase b
      let g := generatePageImage b apiData env
      match g.result with
      | .ok image =>
        let b := g.browser
        let stack' := b.scrollStack ++ [image]
        ({ b with
            isScrollingDown := false
            scrollStack := stack'
            sessionImage := some image
            state := { b.state with
              loading := false
              scrollIndex := newIndex
              scrollDepth := stack'.length
              currentImage := some image
              status := scrollStatus newIndex stack'.length } }, g.calls)
      | .error message =>
        ({ g.browser with
            isScrollingDown := false
            state := { g.browser.state with
              loading := false
              status := "Error scrolling"
              error := some message } }, g.calls)

/-- Loading transition at the start of rerender. -/
def rerenderLoading (b : Browser) : Browser :=
  { b with state := { b.state with
      loading := true, status := "Re-rendering with new style..." } }

/-- rerender (browser.ts lines 1014-1046). -/
def rerender (b : Browser) (env : GenEnv) : Browser × List GenRequest :=
  if jsTruthyStr b.state.currentUrl = false ∨ b.state.currentApiData = none then (b, [])
  else
    let apiData := b.state.currentApiData.getD (.rawData "")
    let b := rerenderLoading b
    let g := generatePageImage b apiData env
    match g.result with
    | .ok image =>
      ({ g.browser with
          scrollStack := [image]
          sessionImage := some image
          state := { g.browser.state with
            loading := false
            status := "Page re-rendered"
            currentImage := some image
            scrollIndex := 0
            scrollDepth := 1 } }, g.calls)
    | .error message =>
      ({ g.browser with state := { g.browser.state with
          loading := false
          status := "Error re-rendering"
          error := some message } }, g.calls)

/-! ## Click handling (browser.ts lines 1476-1665) -/

/-- Shape of the value interpretClick resolves with: the fields read off the
parsed JSON (absent or non-string fields are none) plus the pointer-annotated
image attached by interpretClick. -/
structure InterpretOutcome where
  action : Option String
  url : Option String
  reason : Option String
  imageWithPointer : Option String
deriving DecidableEq, Repr

/-- handleClick (browser.ts lines 1476-1514).  The interp argument is the
outcome of the interpretClick call (error = the exception caught at line
1506); nav is the environment of the navigation the decision may trigger. -/
def handleClick (b : Browser) (x y : Nat) (interp : Except String InterpretOutcome)
    (nav : NavEnv) : Browser × List GenRequest :=
  if jsTruthyStr b.state.currentImage = false ∨ b.state.currentApiData = none then (b, [])
  else
    let b := { b with state := { b.state with
        loading := true
        status := "Interpreting click at (" ++ toString x ++ ", " ++ toString y ++ ")..."
        error := none } }
    match interp with
    | .error message =>
      ({ b with state := { b.state with
          loading := false
          status := "Error interpreting click"
          error := some message } }, [])
    | .ok result =>
      if result.action = some "navigate" ∧ jsTruthyStr result.url then
        let b := { b with
            sessionImage := jsOrNullStr result.imageWithPointer
            sessionClickContext := true }
        let out := navigate b (result.url.getD "") false nav
        ({ out.1 with sessionClickContext := false }, out.2)
      else if result.action = some "none" then
        ({ b with state := { b.state with
            loading := false
            status := jsOrStr result.reason "No navigation target found" } }, [])
      else (b, [])

/-! ## JSON extraction from the click-interpretation response

interpretClick (browser.ts lines 1649-1665) runs text.match of a regex
matching a brace, any characters, and a closing brace — i.e. the substring
from the first opening brace to the last closing brace after it — and feeds
it to JSON.parse, falling back to a fixed none-decision on any failure. -/

/-- Substring matched by the brace regex: from the first opening brace to the
last closing brace of the text, provided that closing brace comes later. -/
def jsonSpan (text : String) : Option String :=
  match text.data.dropWhile (· ≠ '\x7b') with
  | [] => none
  | br :: u =>
    if '\x7d' ∈ u then
      some (String.mk (br :: (u.reverse.dropWhile (· ≠ '\x7d')).reverse))
    else none

/-- JSON values as produced by JSON.parse (numbers kept exact). -/
inductive JsonVal where
  | null
  | bool (b : Bool)
  | num (q : ℚ)
  | str (s : String)
  | arr (items : List JsonVal)
  | obj (members : List (String × JsonVal))

def isJsonWs (c : Char) : Bool :=
  c = ' ' || c = '\t' || c = '\n' || c = '\r'

def skipWs (cs : List Char) : List Char :=
  cs.dropWhile isJsonWs

def hexVal (c : Char) : Option Nat :=
  if c.isDigit then some (c.toNat - 48)
  else if 'a' ≤ c ∧ c ≤ 'f' then some (c.toNat - 97 + 10)
  else if 'A' ≤ c ∧ c ≤ 'F' then some (c.toNat - 65 + 10)
  else none

def simpleEsc : Char → Option Char
  | '"' => some '"'
  | '\\' => some '\\'
  | '/' => some '/'
  | 'b' => some (Char.ofNat 8)
  | 'f' => some (Char.ofNat 12)
  | 'n' => some '\n'
  | 'r' => some '\r'
  | 't' => some '\t'
  | _ => none

/-- Body of a JSON string literal after the opening quote: returns the decoded
characters and the remainder after the closing quote.  Unescaped control
characters are rejected, as JSON.parse does. -/
def strBody : List Char → Option (List Char × List Char)
  | [] => none
  | c :: rest =>
    if c = '"' then some ([], rest)
    else if c = '\\' then
      match rest with
      | 'u' :: h1 :: h2 :: h3 :: h4 :: rest3 =>
        match hexVal h1, hexVal h2, hexVal h3, hexVal h4 with
        | some a, some b, some c2, some d =>
          (strBody rest3).map fun p => (Char.ofNat (((a * 16 + b) * 16 + c2) * 16 + d) :: p.1, p.2)
        | _, _, _, _ => none
      | e :: rest2 =>
        match simpleEsc e with
        | some ec => (strBody rest2).map fun p => (ec :: p.1, p.2)
        | none => none
      | [] => none
    else if c.toNat < 32 then none
    else (strBody rest).map fun p => (c :: p.1, p.2)

def digitsToNat (l : List Char) : Nat :=
  l.foldl (fun a c => a * 10 + (c.toNat - 48)) 0

/-- Exponent suffix of a JSON number; also applies the sign of the mantissa. -/
def parseExpPart (v : ℚ) (neg : Bool) (cs : List Char) : Option (ℚ × List Char) :=
  let signed := if neg then -v else v
  match cs with
  | 'e' :: r | 'E' :: r =>
    let (eneg, r1) :=
      match r with
      | '-' :: r2 => (true, r2)
      | '+' :: r2 => (false, r2)
      | _ => (false, r)
    let ds := r1.takeWhile Char.isDigit
    if ds.isEmpty then none
    else
      let e := digitsToNat ds
      let factor : ℚ := (10 : ℚ) ^ e
      some (if eneg then signed / factor else signed * factor, r1.dropWhile Char.isDigit)
  | _ => some (signed, cs)

/-- JSON number grammar: optional minus, integer part without leading zeros,
optional fraction, optional exponent. -/
def parseNumber (cs : List Char) : Option (ℚ × List Char) :=
  let (neg, cs1) :=
    match cs with
    | '-' :: r => (true, r)
    | _ => (false, cs)
  match cs1 with
  | [] => none
  | c :: _ =>
    if !c.isDigit then none
    else
      let intPart := cs1.takeWhile Char.isDigit
      let rest1 := cs1.dropWhile Char.isDigit
      if intPart.length > 1 ∧ intPart.head? = some '0' then none
      else
        let iv : ℚ := digitsToNat intPart
        match rest1 with
        | '.' :: r2 =>
          let fd := r2.takeWhile Char.isDigit
          if fd.isEmpty then none
          else
            let fv : ℚ := (digitsToNat fd : ℚ) / (10 : ℚ) ^ fd.length
            parseExpPart (iv + fv) neg (r2.dropWhile Char.isDigit)
        | _ => parseExpPart iv neg rest1

mutual

/-- Fuel-indexed JSON value reader; the fuel only bounds nesting and member
counts and is instantiated with the input length, which always suffices. -/
def parseVal : Nat → List Char → Option (JsonVal × List Char)
  | 0, _ => none
  | fuel + 1, cs =>
    match skipWs cs with
    | 'n' :: 'u' :: 'l' :: 'l' :: r => some (.null, r)
    | 't' :: 'r' :: 'u' :: 'e' :: r => some (.bool true, r)
    | 'f' :: 'a' :: 'l' :: 's' :: 'e' :: r => some (.bool false, r)
    | '"' :: r => (strBody r).map fun p => (.str (String.mk p.1), p.2)
    | '[' :: r =>
      match skipWs r with
      | ']' :: r2 => some (.arr [], r2)
      | t => (parseArrItems fuel t).map fun p => (.arr p.1, p.2)
    | '\x7b' :: r =>
      match skipWs r with
      | '\x7d' :: r2 => some (.obj [], r2)
      | t => (parseObjItems fuel t).map fun p => (.obj p.1, p.2)
    | c :: r =>
      if c = '-' || c.isDigit then (parseNumber (c :: r)).map fun p => (.num p.1, p.2)
      else none
    | [] => none

def parseArrItems : Nat → List Char → Option (List JsonVal × List Char)
  | 0, _ => none
  | fuel + 1, cs =>
    match parseVal fuel cs with
    | none => none
    | some (v, rest) =>
      match skipWs rest with
      | ',' :: r2 => (parseArrItems fuel r2).map fun p => (v :: p.1, p.2)
      | ']' :: r2 => some ([v], r2)
      | _ => none

def parseObjItems : Nat → List Char → Option (List (String × JsonVal) × List Char)
  | 0, _ => none
  | fuel + 1, cs =>
    match skipWs cs with
    | '"' :: r =>
      match strBody r with
      | none => none
      | some (k, r1) =>
        match skipWs r1 with
        | ':' :: r2 =>
          match parseVal fuel r2 with
          | none => none
          | some (v, r3) =>
            match skipWs r3 with
            | ',' :: r4 => (parseObjItems fuel r4).map fun p => ((String.mk k, v) :: p.1, p.2)
            | '\x7d' :: r4 => some ([(String.mk k, v)], r4)
            | _ => none
        | _ => none
    | _ => none

end

/-- JSON.parse on a whole string: one value, then only whitespace. -/
def parseJsonText (s : String) : Option JsonVal :=
  match parseVal (s.data.length + 1) s.data with
  | some (v, rest) => if (skipWs rest).isEmpty then some v else none
  | none => none

/-- JavaScript property read result.key on a parsed JSON value, keeping only
string values (later duplicate keys win, as in JSON.parse). -/
def jsGetStr (v : JsonVal) (key : String) : Option String :=
  match v with
  | .obj members =>
    match members.reverse.lookup key with
    | some (.str s) => some s
    | _ => none
  | _ => none

/-- Fallback decision of interpretClick (browser.ts line 1664). -/
def noneFallbackOutcome (imageWithPointer : String) : InterpretOutcome :=
  { action := some "none"
    url := none
    reason := some "Could not interpret click"
    imageWithPointer := some imageWithPointer }

/-- Response-parsing tail of interpretClick (browser.ts lines 1649-1665): the
first-to-last-brace span is extracted and JSON.parsed; on any failure the
fixed none-decision is returned instead of raising. -/
def interpretParse (text : String) (imageWithPointer : String) : InterpretOutcome :=
  match jsonSpan text with
  | some span =>
    match parseJsonText span with
    | some v =>
      { action := jsGetStr v "action"
        url := jsGetStr v "url"
        reason := jsGetStr v "reason"
        imageWithPointer := some imageWithPointer }
    | none => noneFallbackOutcome imageWithPointer
  | none => noneFallbackOutcome imageWithPointer

/-- A navigate decision object as the vision model is instructed to emit it. -/
def navDecisionText (url : String) : String :=
  "\x7b\"action\": \"navigate\", \"url\": \"" ++ url ++ "\"\x7d"

/-- Spec-side cost formula: sum over token kinds of count times per-token
price. -/
def kindSum (kinds : List (Nat × ℚ)) : ℚ :=
  (kinds.map fun p => (p.1 : ℚ) * p.2).sum

/-! ## Concrete environments and states used by witnesses -/

/-- Generation environment whose Gemini response carries one image part and
whose OpenAI response carries one base64 image. -/
def genEnvOk : GenEnv :=
  { fetchImg := fun _ => none
    gemini := { usageMetadata := none
                parts := [{ inlineData := some { mimeType := some "image/png", data := "AAA" } }] }
    openaiResp := { ok := true, status := 200, errorMessage := none, usage := none,
                    b64Json := some "BBB" } }

/-- Generation environment whose Gemini response has zero image parts. -/
def genEnvNoImage : GenEnv :=
  { fetchImg := fun _ => none
    gemini := { usageMetadata := none, parts := [] }
    openaiResp := { ok := true, status := 200, errorMessage := none, usage := none,
                    b64Json := none } }

def navEnvOk : NavEnv := { fetchResult := .ok (.rawData "dat"), gen := genEnvOk }

def navEnvFetchFail : NavEnv := { fetchResult := .error "network down", gen := genEnvOk }

def navEnvNoImage : NavEnv := { fetchResult := .ok (.rawData "dat"), gen := genEnvNoImage }

/-- A freshly constructed browser with a Gemini key. -/
def browserEx : Browser := initBrowser true false .flash

/-- The browser after one successful fresh navigation. -/
def browserWithPage : Browser := (navigate browserEx "https://api.example/a" true navEnvOk).1

/-- A navigate decision carrying a pointer-annotated image. -/
def clickResultEx : InterpretOutcome :=
  { action := some "navigate"
    url := some "https://api.example/b"
    reason := none
    imageWithPointer := some "data:image/png;base64,PTR" }


/-- scrollDown iterated over a list of generation environments. -/
def scrollDownN (b : Browser) (envs : List GenEnv) : Browser :=
  envs.foldl (fun acc e => (scrollDown acc e).1) b

/-- scrollUp iterated n times. -/
def scrollUpN (b : Browser) : Nat → Browser
  | 0 => b
  | n + 1 => scrollUpN (scrollUp b).1 n

/-- Relation between scroll stack, index and displayed image maintained by the
scroll operations once a page is loaded: index 0 still holds the original
image, the index stays inside the stack, the displayed image is the stack
entry at the index, and a positive index implies a usable current URL. -/
def ScrollReplayInv (img : String) (b : Browser) : Prop :=
  b.scrollStack.head? = some img ∧
  b.state.scrollIndex < b.scrollStack.length ∧
  b.state.currentImage = b.scrollStack.get? b.state.scrollIndex ∧
  (0 < b.state.scrollIndex → jsTruthyStr b.state.currentUrl = true)

/-- Scroll invariant stated by the spec: the scroll index is below the scroll
depth and the depth equals the scroll stack length. -/
def ScrollInv (b : Browser) : Prop :=
  b.state.scrollIndex < b.state.scrollDepth ∧ b.state.scrollDepth = b.scrollStack.length

/-! # Theorems -/

/-- C10 (amended): setStyle installs the preset description for each of the
six preset keys and the literal text for strings outside the preset keys and
the Object.prototype property names; for an inherited property name the
in-test also answers true and the inherited member is installed instead of
the string. The installed style is never a preset key, and the cache key
consulted by navigate is always built from the string form of the resolved
value, never from the preset key. -/
theorem c10_setStyle_resolution_amended :
    (∀ (b : Browser) (k : String), k ∈ STYLE_PRESET_KEYS →
      (b.setStyle k).currentStyle = .str (stylePresetText k))
    ∧ (∀ (b : Browser) (s : String), s ∉ STYLE_PRESET_KEYS → s ∉ OBJECT_PROTO_PROPS →
      (b.setStyle s).currentStyle = .str s)
    ∧ (∀ (b : Browser) (s : String), s ∉ STYLE_PRESET_KEYS → s ∈ OBJECT_PROTO_PROPS →
      (b.setStyle s).currentStyle = .protoMember s)
    ∧ (∀ (b : Browser) (s k : String), k ∈ STYLE_PRESET_KEYS →
      (b.setStyle s).currentStyle ≠ .str k)
    ∧ (∀ (b : Browser) (s url : String),
      navCacheKey (b.setStyle s) url =
        getCacheKey url b.currentModelKey.key (resolveStyle s).coerced) := by
  refine ⟨fun b k hk => ?_, fun b s hs hp => ?_, fun b s hs hp => ?_,
    fun b s k hk => ?_, fun b s url => ?_⟩
  · simp [Browser.setStyle, resolveStyle, hk]
  · simp [Browser.setStyle, resolveStyle, hs, hp]
  · simp [Browser.setStyle, resolveStyle, hs, hp]
  · by_cases hs : s ∈ STYLE_PRESET_KEYS
    · simp only [Browser.setStyle, resolveStyle, if_pos hs]
      simp only [STYLE_PRESET_KEYS, List.mem_cons, List.not_mem_nil, or_false] at hs hk
      rcases hs with rfl | rfl | rfl | rfl | rfl | rfl <;>
        rcases hk with rfl | rfl | rfl | rfl | rfl | rfl <;> decide
    · by_cases hp : s ∈ OBJECT_PROTO_PROPS
      · simp [Browser.setStyle, resolveStyle, hs, hp]
      · simp only [Browser.setStyle, resolveStyle, if_neg hs, if_neg hp, ne_eq,
          StyleVal.str.injEq]
        intro he
        subst he
        exact hs hk
  · simp [navCacheKey, Browser.setStyle]

/-- C10 witness: a preset key resolves to its description, free text outside
both special sets is installed verbatim, an inherited property name installs
the prototype member, the installed style is never a preset key, and the
cache key is built from the coerced resolved value. -/
theorem c10_setStyle_resolution_amended_witness :
    ((initBrowser true false .flash).setStyle "hacker").currentStyle =
        .str (stylePresetText "hacker")
    ∧ ((initBrowser true false .flash).setStyle "pink dinosaurs").currentStyle =
        .str "pink dinosaurs"
    ∧ ((initBrowser true false .flash).setStyle "hasOwnProperty").currentStyle =
        .protoMember "hasOwnProperty"
    ∧ ((initBrowser true false .flash).setStyle "valueOf").currentStyle ≠ .str "modern"
    ∧ navCacheKey ((initBrowser true false .flash).setStyle "geocities") "https://u" =
        getCacheKey "https://u" ImageModel.flash.key (resolveStyle "geocities").coerced :=
  ⟨c10_setStyle_resolution_amended.1 _ "hacker" (by decide),
   c10_setStyle_resolution_amended.2.1 _ "pink dinosaurs" (by decide) (by decide),
   c10_setStyle_resolution_amended.2.2.1 _ "hasOwnProperty" (by decide) (by decide),
   c10_setStyle_resolution_amended.2.2.2.1 _ "valueOf" "modern" (by decide),
   c10_setStyle_resolution_amended.2.2.2.2 _ "geocities" "https://u"⟩

/-- C10 counterexample: "toString" is none of the six preset keys, yet
setStyle does not install it verbatim — the JS in-test also matches the
inherited Object.prototype member, whose lookup is installed instead. -/
theorem c10_setStyle_resolution_counterexample :
    "toString" ∉ STYLE_PRESET_KEYS
    ∧ ((initBrowser true false .flash).setStyle "toString").currentStyle ≠
        .str "toString"
    ∧ ((initBrowser true false .flash).setStyle "toString").currentStyle =
        .protoMember "toString" := by
  refine ⟨by decide, by decide, by decide⟩

/-- C9: every trackUsage call increments estimatedCost by exactly the sum over
token kinds of count times per-token price from the static pricing table
(input/output kinds for the text model and for Gemini image generation, where
output tokens are priced as image output; text-input/image-input/image-output
kinds for OpenAI image generation); absent metadata contributes zero; and 1000
input plus 500 output tokens at 1 and 2 dollars per 1M tokens add exactly
0.002 dollars. -/
theorem c9_trackUsage_cost :
    (∀ (b : Browser) (m : Option UsageMetadata),
      (trackUsage b .text m).state.usage.estimatedCost
        = b.state.usage.estimatedCost
          + kindSum [(metaInputTokens m, (textPricingOf b).input),
                     (metaOutputTokens m, (textPricingOf b).output)])
    ∧ (∀ (b : Browser) (m : Option UsageMetadata),
      (IMAGE_MODELS b.currentModelKey).provider = .gemini →
      (trackUsage b .image m).state.usage.estimatedCost
        = b.state.usage.estimatedCost
          + kindSum [(metaInputTokens m, (geminiImagePricingOf b.currentModelKey).input),
                     (metaOutputTokens m, (geminiImagePricingOf b.currentModelKey).imageOutput)])
    ∧ (∀ (b : Browser) (m : Option UsageMetadata),
      (IMAGE_MODELS b.currentModelKey).provider = .openai →
      (trackUsage b .image m).state.usage.estimatedCost
        = b.state.usage.estimatedCost
          + kindSum [(metaTextInputTokens m, (openaiImagePricingOf b.currentModelKey).input),
                     (metaImageInputTokens m, (openaiImagePricingOf b.currentModelKey).imageInput),
                     (metaOutputTokens m, (openaiImagePricingOf b.currentModelKey).imageOutput)])
    ∧ (∀ (b : Browser) (t : UsageType),
      (trackUsage b t none).state.usage.estimatedCost = b.state.usage.estimatedCost)
    ∧ textCost ⟨(1 : ℚ) / 1000000, (2 : ℚ) / 1000000⟩ 1000 500 = (0.002 : ℚ) := by
  refine ⟨fun b m => ?_, fun b m h => ?_, fun b m h => ?_, fun b t => ?_, ?_⟩
  · simp [trackUsage, kindSum, textCost]
  · simp [trackUsage, kindSum, h, geminiImageCost]
  · simp [trackUsage, kindSum, h, openaiImageCost]
    ring
  · have hin : metaInputTokens none = 0 := rfl
    have hout : metaOutputTokens none = 0 := rfl
    have htin : metaTextInputTokens none = 0 := rfl
    have himg : metaImageInputTokens none = 0 := rfl
    cases t
    · cases h : (IMAGE_MODELS b.currentModelKey).provider <;>
        simp [trackUsage, h, hin, hout, htin, himg, geminiImageCost, openaiImageCost]
    · simp [trackUsage, hin, hout, textCost]
  · norm_num [textCost]

/-- C9 witness: the Gemini image branch at a concrete metadata record. -/
theorem c9_trackUsage_cost_witness :
    (trackUsage (initBrowser true false .flash) .image
        (some ⟨some 1000, some 500, none, none, none⟩)).state.usage.estimatedCost
      = (initBrowser true false .flash).state.usage.estimatedCost
        + kindSum [(metaInputTokens (some ⟨some 1000, some 500, none, none, none⟩),
                    (geminiImagePricingOf .flash).input),
                   (metaOutputTokens (some ⟨some 1000, some 500, none, none, none⟩),
                    (geminiImagePricingOf .flash).imageOutput)] :=
  c9_trackUsage_cost.2.1 (initBrowser true false .flash)
    (some ⟨some 1000, some 500, none, none, none⟩) rfl

/-- C3: the two-call Hacker News flow caps a front page at the first 15
stories and a story page at the first 10 child comments, and every normalized
story carries the constructed per-item locator following the documented URL
template. -/
theorem c3_hn_caps_and_locators :
    (∀ (ids : List Nat) (itemOf : Nat → Option RawHNStory), 20 ≤ ids.length →
      (fetchHackerNews ids itemOf).stories.length ≤ 15)
    ∧ (∀ (ids : List Nat) (itemOf : Nat → Option RawHNStory) (st : HNStory),
      st ∈ (fetchHackerNews ids itemOf).stories →
      (∀ i r, itemOf i = some r → r.id.isSome) →
      st.apiUrl = "https://hacker-news.firebaseio.com/v0/item/" ++ toString st.id ++ ".json")
    ∧ (∀ (story : RawHNStory) (commentOf : Nat → Option RawHNComment),
      20 ≤ (story.kids.getD []).length →
      (fetchHackerNewsItem story commentOf).comments.length ≤ 10) := by
  refine ⟨fun ids itemOf _ => ?_, fun ids itemOf st hst hids => ?_,
    fun story commentOf _ => ?_⟩
  · calc (fetchHackerNews ids itemOf).stories.length
        = ((ids.take 15).filterMap itemOf).length := by
          simp [fetchHackerNews, processHNFrontPage]
      _ ≤ (ids.take 15).length := List.length_filterMap_le _ _
      _ ≤ 15 := by simp [List.length_take]
  · simp only [fetchHackerNews, processHNFrontPage, List.mem_map] at hst
    obtain ⟨raw, hraw, rfl⟩ := hst
    rw [List.mem_filterMap] at hraw
    obtain ⟨i, _, hi⟩ := hraw
    obtain ⟨n, hn⟩ := Option.isSome_iff_exists.mp (hids i raw hi)
    simp [processHNStoryRecord, hnItemUrl, jsNumStr, hn]
  · calc (fetchHackerNewsItem story commentOf).comments.length
        ≤ (((story.kids.getD []).take 10).filterMap commentOf).length := by
          simp only [fetchHackerNewsItem, processHNStoryWithComments]
          exact List.length_filterMap_le _ _
      _ ≤ ((story.kids.getD []).take 10).length := List.length_filterMap_le _ _
      _ ≤ 10 := by simp [List.length_take]

/-! ## Helper lemmas on generation and navigation -/

/-- trackUsage only modifies the usage counters. -/
theorem trackUsage_fields (b : Browser) (t : UsageType) (m : Option UsageMetadata) :
    (trackUsage b t m).sessionImage = b.sessionImage ∧
    (trackUsage b t m).scrollStack = b.scrollStack ∧
    (trackUsage b t m).history = b.history ∧
    (trackUsage b t m).historyIndex = b.historyIndex ∧
    (trackUsage b t m).imageCache = b.imageCache ∧
    (trackUsage b t m).isScrollingDown = b.isScrollingDown ∧
    (trackUsage b t m).sessionClickContext = b.sessionClickContext ∧
    (trackUsage b t m).state.scrollIndex = b.state.scrollIndex ∧
    (trackUsage b t m).state.scrollDepth = b.state.scrollDepth ∧
    (trackUsage b t m).state.currentImage = b.state.currentImage ∧
    (trackUsage b t m).state.currentUrl = b.state.currentUrl ∧
    (trackUsage b t m).state.currentApiData = b.state.currentApiData ∧
    (trackUsage b t m).state.error = b.state.error ∧
    (trackUsage b t m).state.loading = b.state.loading ∧
    (trackUsage b t m).state.status = b.state.status := by
  cases t <;> simp [trackUsage]

/-- generatePageImage touches the browser only through trackUsage. -/
theorem generatePageImage_browser_eq (b : Browser) (d : ApiData) (env : GenEnv) :
    (generatePageImage b d env).browser = b ∨
    ∃ m, (generatePageImage b d env).browser = trackUsage b .image m := by
  unfold generatePageImage generateWithGemini generateWithOpenAI handleOpenAIResponse
  rcases (IMAGE_MODELS b.currentModelKey).provider
  all_goals repeat' split
  all_goals
    first
    | exact Or.inl rfl
    | exact Or.inr ⟨_, rfl⟩

/-- Fields of the browser that a generatePageImage run leaves untouched. -/
theorem generatePageImage_preserves (b : Browser) (d : ApiData) (env : GenEnv) :
    (generatePageImage b d env).browser.sessionImage = b.sessionImage ∧
    (generatePageImage b d env).browser.scrollStack = b.scrollStack ∧
    (generatePageImage b d env).browser.history = b.history ∧
    (generatePageImage b d env).browser.historyIndex = b.historyIndex ∧
    (generatePageImage b d env).browser.imageCache = b.imageCache ∧
    (generatePageImage b d env).browser.isScrollingDown = b.isScrollingDown ∧
    (generatePageImage b d env).browser.sessionClickContext = b.sessionClickContext ∧
    (generatePageImage b d env).browser.state.scrollIndex = b.state.scrollIndex ∧
    (generatePageImage b d env).browser.state.scrollDepth = b.state.scrollDepth ∧
    (generatePageImage b d env).browser.state.currentImage = b.state.currentImage ∧
    (generatePageImage b d env).browser.state.currentUrl = b.state.currentUrl ∧
    (generatePageImage b d env).browser.state.currentApiData = b.state.currentApiData ∧
    (generatePageImage b d env).browser.state.error = b.state.error := by
  rcases generatePageImage_browser_eq b d env with h | ⟨m, h⟩
  · rw [h]
    exact ⟨rfl, rfl, rfl, rfl, rfl, rfl, rfl, rfl, rfl, rfl, rfl, rfl, rfl⟩
  · rw [h]
    obtain ⟨h1, h2, h3, h4, h5, h6, h7, h8, h9, h10, h11, h12, h13, _⟩ :=
      trackUsage_fields b .image m
    exact ⟨h1, h2, h3, h4, h5, h6, h7, h8, h9, h10, h11, h12, h13⟩

/-- Every request list produced by generatePageImage is empty or the single
ghost record of the calling browser. -/
theorem generatePageImage_calls_shape (b : Browser) (d : ApiData) (env : GenEnv) :
    (generatePageImage b d env).calls = [] ∨
    ∃ pr rf, (generatePageImage b d env).calls = [mkGenRequest b pr rf] := by
  unfold generatePageImage generateWithGemini generateWithOpenAI handleOpenAIResponse
  rcases (IMAGE_MODELS b.currentModelKey).provider
  all_goals repeat' split
  all_goals
    first
    | exact Or.inl rfl
    | exact Or.inr ⟨_, _, rfl⟩

/-- Every generation request logged by generatePageImage snapshots the calling
browser's session fields. -/
theorem generatePageImage_calls (b : Browser) (d : ApiData) (env : GenEnv) :
    ∀ c ∈ (generatePageImage b d env).calls,
      c.sessionImage = b.sessionImage ∧ c.scrollStackAtCall = b.scrollStack ∧
      c.usedClickContext = b.sessionClickContext := by
  intro c hc
  rcases generatePageImage_calls_shape b d env with h | ⟨pr, rf, h⟩
  · rw [h] at hc
    simp at hc
  · rw [h, List.mem_singleton] at hc
    subst hc
    exact ⟨rfl, rfl, rfl⟩

/-- Every request list produced by navigateMiss comes from the single
generatePageImage run on the generating-state browser. -/
theorem navigateMiss_calls_shape (b : Browser) (url cacheKey : String) (env : NavEnv) :
    (navigateMiss b url cacheKey env).2 = [] ∨
    ∃ d, (navigateMiss b url cacheKey env).2 =
      (generatePageImage (navigateGenerating (navigateLoading b url) d) d env.gen).calls := by
  rcases hf : env.fetchResult with m | d
  · left
    simp only [navigateMiss, hf]
  · rcases hg : (generatePageImage (navigateGenerating (navigateLoading b url) d) d
        env.gen).result with m | img <;>
      exact Or.inr ⟨d, by simp only [navigateMiss, hf, hg]⟩

/-- Every generation request issued during a navigate carries the session
image and scroll stack as they stand after the optional freshStart clearing. -/
theorem navigate_calls_context (b : Browser) (url : String) (fresh : Bool) (env : NavEnv) :
    ∀ c ∈ (navigate b url fresh env).2,
      c.sessionImage = (freshClear b fresh).sessionImage ∧
      c.scrollStackAtCall = (freshClear b fresh).scrollStack ∧
      c.usedClickContext = b.sessionClickContext := by
  intro c hc
  simp only [navigate] at hc
  rcases hl : cacheLookup (freshClear b fresh).imageCache
      (navCacheKey (freshClear b fresh) url) with _ | e
  · rw [hl] at hc
    rcases navigateMiss_calls_shape (freshClear b fresh) url
        (navCacheKey (freshClear b fresh) url) env with h | ⟨d, h⟩
    · rw [h] at hc
      simp at hc
    · rw [h] at hc
      have := generatePageImage_calls
        (navigateGenerating (navigateLoading (freshClear b fresh) url) d) d env.gen c hc
      have hcc : b.sessionClickContext = (freshClear b fresh).sessionClickContext := by
        unfold freshClear
        rcases fresh <;> rfl
      rw [hcc]
      exact this
  · rw [hl] at hc
    simp at hc

/-- The catch block only rewrites loading, status and error. -/
theorem navigateErrorStep_fields (b : Browser) (m : String) :
    (navigateErrorStep b m).sessionImage = b.sessionImage ∧
    (navigateErrorStep b m).scrollStack = b.scrollStack ∧
    (navigateErrorStep b m).history = b.history ∧
    (navigateErrorStep b m).historyIndex = b.historyIndex ∧
    (navigateErrorStep b m).state.scrollIndex = b.state.scrollIndex ∧
    (navigateErrorStep b m).state.scrollDepth = b.state.scrollDepth ∧
    (navigateErrorStep b m).state.currentImage = b.state.currentImage ∧
    (navigateErrorStep b m).state.currentUrl = b.state.currentUrl ∧
    (navigateErrorStep b m).state.currentApiData = b.state.currentApiData ∧
    (navigateErrorStep b m).state.loading = false ∧
    (navigateErrorStep b m).state.status = "Error" ∧
    ∃ e, (navigateErrorStep b m).state.error = some e := by
  unfold navigateErrorStep
  rcases rateLimitSeconds m with _ | n <;> simp

/-- A non-fresh navigate never nulls the session image once it is set. -/
theorem navigate_sessionImage_isSome (b : Browser) (url : String) (env : NavEnv)
    (h : b.sessionImage.isSome = true) :
    ((navigate b url false env).1).sessionImage.isSome = true := by
  have hb : freshClear b false = b := rfl
  simp only [navigate, hb]
  rcases cacheLookup b.imageCache (navCacheKey b url) with _ | e
  · rcases hf : env.fetchResult with m | d
    · have h1 := (navigateErrorStep_fields (navigateLoading b url) m).1
      simp only [navigateMiss, hf]
      rw [h1]
      exact h
    · rcases hg : (generatePageImage (navigateGenerating (navigateLoading b url) d) d
          env.gen).result with m | img
      · have h1 := (navigateErrorStep_fields
          (generatePageImage (navigateGenerating (navigateLoading b url) d) d env.gen).browser m).1
        have h2 := (generatePageImage_preserves
          (navigateGenerating (navigateLoading b url) d) d env.gen).1
        simp only [navigateMiss, hf, hg]
        rw [h1, h2]
        exact h
      · simp only [navigateMiss, hf, hg]
        rfl
  · rfl

/-- C6: a navigate with freshStart=true nulls the session image and empties
the scroll stack before any generation call for that navigation is issued, so
every generation request of a fresh navigation carries no session image
continuity context and an empty scroll stack snapshot. -/
theorem c6_fresh_navigation_clears_continuity :
    ∀ (b : Browser) (url : String) (env : NavEnv),
      ((navigate b url true env).2).all
        (fun c => c.sessionImage == none && c.scrollStackAtCall.isEmpty) = true := by
  intro b url env
  rw [List.all_eq_true]
  intro c hc
  obtain ⟨ha, hstack, _⟩ := navigate_calls_context b url true env c hc
  have h1 : (freshClear b true).sessionImage = none := rfl
  have h2 : (freshClear b true).scrollStack = [] := rfl
  rw [h1] at ha
  rw [h2] at hstack
  simp [ha, hstack]

/-- C2: a click whose interpretation is a navigate decision with a URL sets
the session image to the pointer-annotated image and triggers
navigate(url, freshStart=false); that navigation keeps the session image
non-null, and every generation request it issues receives the
pointer-annotated image as continuity context with the click-context flag
set. -/
theorem c2_click_navigation_preserves_continuity :
    ∀ (b : Browser) (x y : Nat) (r : InterpretOutcome) (nav : NavEnv) (u p : String),
      jsTruthyStr b.state.currentImage = true →
      b.state.currentApiData ≠ none →
      r.action = some "navigate" →
      r.url = some u → u ≠ "" →
      r.imageWithPointer = some p → p ≠ "" →
      ((handleClick b x y (.ok r) nav).1.sessionImage.isSome = true ∧
       ((handleClick b x y (.ok r) nav).2).all
         (fun c => c.sessionImage == some p && c.usedClickContext) = true) := by
  intro b x y r nav u p himg hdata hact hurl hu hptr hp
  have hguard : ¬(jsTruthyStr b.state.currentImage = false ∨ b.state.currentApiData = none) := by
    rw [himg]
    simp [hdata]
  have hcond : r.action = some "navigate" ∧ jsTruthyStr r.url = true := by
    refine ⟨hact, ?_⟩
    rw [hurl]
    simpa [jsTruthyStr] using hu
  simp only [handleClick, if_neg hguard, if_pos hcond]
  set b1 : Browser :=
    { b with state := { b.state with
        loading := true
        status := "Interpreting click at (" ++ toString x ++ ", " ++ toString y ++ ")..."
        error := none } } with hb1
  set b2 : Browser := { b1 with
      sessionImage := jsOrNullStr r.imageWithPointer
      sessionClickContext := true } with hb2
  have hsess : b2.sessionImage = some p := by
    rw [hb2, hptr]
    simp [jsOrNullStr, hp]
  constructor
  · have := navigate_sessionImage_isSome b2 (r.url.getD "") nav (by rw [hsess]; rfl)
    simpa using this
  · rw [List.all_eq_true]
    intro c hc
    obtain ⟨ha, _, hctx⟩ := navigate_calls_context b2 (r.url.getD "") false nav c (by simpa using hc)
    have hfc : freshClear b2 false = b2 := rfl
    rw [hfc] at ha
    rw [ha, hsess]
    have : b2.sessionClickContext = true := rfl
    rw [this] at hctx
    simp [hctx]

/-- C2 witness: the click-driven navigation from a loaded page keeps the
session image non-null and its generation request carries the pointer image. -/
theorem c2_click_navigation_preserves_continuity_witness :
    ((handleClick browserWithPage 3 4 (.ok clickResultEx) navEnvOk).1.sessionImage.isSome = true ∧
     ((handleClick browserWithPage 3 4 (.ok clickResultEx) navEnvOk).2).all
       (fun c => c.sessionImage == some "data:image/png;base64,PTR" && c.usedClickContext)
       = true) :=
  c2_click_navigation_preserves_continuity browserWithPage 3 4 clickResultEx navEnvOk
    "https://api.example/b" "data:image/png;base64,PTR"
    (by decide) (by decide) rfl rfl (by decide) rfl (by decide)

/-! ## C7: zero image parts -/

/-- A Gemini response whose parts all lack inlineData yields no image. -/
theorem extractGeminiImage_none (parts : List GeminiPart)
    (h : parts.all (fun pt => pt.inlineData == none) = true) :
    extractGeminiImage parts = .error "No image generated in response" := by
  unfold extractGeminiImage
  have : parts.findSome? (·.inlineData) = none := by
    induction parts with
    | nil => rfl
    | cons hd tl ih =>
      rw [List.all_cons, Bool.and_eq_true] at h
      rw [List.findSome?_cons]
      have hhd : hd.inlineData = none := by simpa using h.1
      rw [hhd]
      exact ih h.2
  rw [this]

/-- Generation fails with the no-image message when the Gemini provider
responds without an image part. -/
theorem generatePageImage_noImage (b : Browser) (d : ApiData) (env : GenEnv)
    (hkey : b.hasGeminiKey = true)
    (hprov : (IMAGE_MODELS b.currentModelKey).provider = .gemini)
    (hparts : env.gemini.parts.all (fun pt => pt.inlineData == none) = true) :
    (generatePageImage b d env).result = .error "No image generated in response" := by
  unfold generatePageImage generateWithGemini
  rw [hprov]
  simp only [hkey, Bool.not_true, Bool.false_eq_true, if_false]
  exact extractGeminiImage_none _ hparts

/-- C7: on a cache miss with a successful fetch, a Gemini response containing
zero image parts settles navigate in the Error state with the no-image
message, leaving currentImage unchanged. -/
theorem c7_no_image_parts_error :
    ∀ (b : Browser) (url : String) (fresh : Bool) (env : NavEnv) (d : ApiData),
      b.hasGeminiKey = true →
      (IMAGE_MODELS b.currentModelKey).provider = .gemini →
      cacheLookup b.imageCache (navCacheKey b url) = none →
      env.fetchResult = .ok d →
      env.gen.gemini.parts.all (fun pt => pt.inlineData == none) = true →
      ((navigate b url fresh env).1.state.loading = false ∧
       (navigate b url fresh env).1.state.status = "Error" ∧
       (navigate b url fresh env).1.state.error = some "No image generated in response" ∧
       (navigate b url fresh env).1.state.currentImage = b.state.currentImage) := by
  intro b url fresh env d hkey hprov hcache hfetch hparts
  have hfc1 : (freshClear b fresh).imageCache = b.imageCache := by
    rcases fresh <;> rfl
  have hfc2 : navCacheKey (freshClear b fresh) url = navCacheKey b url := by
    rcases fresh <;> rfl
  set bm : Browser := navigateGenerating (navigateLoading (freshClear b fresh) url) d with hbm
  have hkey' : bm.hasGeminiKey = b.hasGeminiKey := by
    rw [hbm]
    rcases fresh <;> rfl
  have hprov' : (IMAGE_MODELS bm.currentModelKey).provider = .gemini := by
    have : bm.currentModelKey = b.currentModelKey := by
      rw [hbm]
      rcases fresh <;> rfl
    rw [this]
    exact hprov
  have hgen : (generatePageImage bm d env.gen).result
      = .error "No image generated in response" :=
    generatePageImage_noImage bm d env.gen (hkey' ▸ hkey) hprov' hparts
  have hrl : rateLimitSeconds "No image generated in response" = none := by decide
  have herr := navigateErrorStep_fields (generatePageImage bm d env.gen).browser
    "No image generated in response"
  simp only [navigate, hfc1, hfc2, hcache, navigateMiss, hfetch, ← hbm, hgen]
  have himg : (generatePageImage bm d env.gen).browser.state.currentImage
      = b.state.currentImage := by
    have := (generatePageImage_preserves bm d env.gen).2.2.2.2.2.2.2.2.2.1
    rw [this, hbm]
    rcases fresh <;> rfl
  unfold navigateErrorStep
  rw [hrl]
  exact ⟨rfl, rfl, rfl, himg⟩

/-- C7 witness: a concrete fresh navigation against an empty-parts response. -/
theorem c7_no_image_parts_error_witness :
    ((navigate browserEx "https://api.example/a" true navEnvNoImage).1.state.loading = false ∧
     (navigate browserEx "https://api.example/a" true navEnvNoImage).1.state.status = "Error" ∧
     (navigate browserEx "https://api.example/a" true navEnvNoImage).1.state.error
       = some "No image generated in response" ∧
     (navigate browserEx "https://api.example/a" true navEnvNoImage).1.state.currentImage
       = browserEx.state.currentImage) :=
  c7_no_image_parts_error browserEx "https://api.example/a" true navEnvNoImage (.rawData "dat")
    rfl rfl rfl rfl (by decide)

/-- The catch block always surfaces an error message. -/
theorem navigateErrorStep_error_isSome (b : Browser) (m : String) :
    ∃ e, (navigateErrorStep b m).state.error = some e := by
  unfold navigateErrorStep
  rcases rateLimitSeconds m with _ | n <;> simp

/-- C4: a successful navigate (cached or generated) truncates all history
entries beyond the current index before appending the new entry and leaves
the index on the last entry, so goForward is then a no-op that changes no
state. -/
theorem c4_history_truncation :
    (∀ (b : Browser) (url : String) (fresh : Bool) (env : NavEnv),
      (navigate b url fresh env).1.state.error = none →
      ∃ e : HistoryEntry, e.url = url ∧
        (navigate b url fresh env).1.history
          = b.history.take (b.historyIndex + 1).toNat ++ [e] ∧
        (navigate b url fresh env).1.historyIndex
          = ((navigate b url fresh env).1.history.length : Int) - 1)
    ∧ (∀ b : Browser, (b.history.length : Int) - 1 ≤ b.historyIndex → goForward b = b)
    ∧ (∀ (b : Browser) (url : String) (fresh : Bool) (env : NavEnv),
      (navigate b url fresh env).1.state.error = none →
      goForward (navigate b url fresh env).1 = (navigate b url fresh env).1) := by
  have hnoop : ∀ b : Browser, (b.history.length : Int) - 1 ≤ b.historyIndex → goForward b = b := by
    intro b h
    have hcond : ¬(b.historyIndex < (b.history.length : Int) - 1) := not_lt.mpr h
    simp only [goForward, if_neg hcond]
  have hmain : ∀ (b : Browser) (url : String) (fresh : Bool) (env : NavEnv),
      (navigate b url fresh env).1.state.error = none →
      ∃ e : HistoryEntry, e.url = url ∧
        (navigate b url fresh env).1.history
          = b.history.take (b.historyIndex + 1).toNat ++ [e] ∧
        (navigate b url fresh env).1.historyIndex
          = ((navigate b url fresh env).1.history.length : Int) - 1 := by
    intro b url fresh env h
    rcases hl : cacheLookup (freshClear b fresh).imageCache
        (navCacheKey (freshClear b fresh) url) with _ | e
    · simp only [navigate, hl] at h ⊢
      rcases hf : env.fetchResult with m | d
      · simp only [navigateMiss, hf] at h
        obtain ⟨e', he'⟩ := navigateErrorStep_error_isSome (navigateLoading (freshClear b fresh) url) m
        rw [he'] at h
        cases h
      · set bm : Browser := navigateGenerating (navigateLoading (freshClear b fresh) url) d with hbm
        rcases hg : (generatePageImage bm d env.gen).result with m | img
        · simp only [navigateMiss, hf, ← hbm, hg] at h
          obtain ⟨e', he'⟩ := navigateErrorStep_error_isSome (generatePageImage bm d env.gen).browser m
          rw [he'] at h
          cases h
        · simp only [navigateMiss, hf, ← hbm, hg]
          refine ⟨⟨url, d, img⟩, rfl, ?_, rfl⟩
          have h3 := (generatePageImage_preserves bm d env.gen).2.2.1
          have h4 := (generatePageImage_preserves bm d env.gen).2.2.2.1
          show (navigateSuccess (generatePageImage bm d env.gen).browser url
            (navCacheKey (freshClear b fresh) url) d img).history = _
          simp only [navigateSuccess]
          rw [h3, h4]
          rcases fresh <;> rfl
    · simp only [navigate, hl]
      refine ⟨⟨url, e.apiData, e.image⟩, rfl, ?_, rfl⟩
      show (navigateCached (freshClear b fresh) url e).history = _
      simp only [navigateCached]
      rcases fresh <;> rfl
  refine ⟨hmain, hnoop, fun b url fresh env h => ?_⟩
  obtain ⟨e, _, _, hidx⟩ := hmain b url fresh env h
  exact hnoop _ (le_of_eq hidx.symm)

/-- C4 witness: after a second navigation from an earlier history position,
goForward leaves the browser unchanged. -/
theorem c4_history_truncation_witness :
    goForward (navigate browserWithPage "https://api.example/c" true navEnvOk).1
      = (navigate browserWithPage "https://api.example/c" true navEnvOk).1 :=
  c4_history_truncation.2.2 browserWithPage "https://api.example/c" true navEnvOk (by decide)

/-! ## C5: scroll replay -/

/-- scrollUp preserves the replay invariant and decrements the index. -/
theorem scrollUp_inv (img : String) (b : Browser) (h : ScrollReplayInv img b) :
    ScrollReplayInv img (scrollUp b).1 ∧
    (scrollUp b).1.state.scrollIndex = b.state.scrollIndex - 1 := by
  obtain ⟨h1, h2, h3, h4⟩ := h
  by_cases hg : b.state.scrollIndex = 0 ∨ jsTruthyStr b.state.currentUrl = false
  · have hidx : b.state.scrollIndex = 0 := by
      rcases hg with hz | hu
      · exact hz
      · by_contra hne
        rw [h4 (Nat.pos_of_ne_zero hne)] at hu
        cases hu
    simp only [scrollUp, if_pos hg]
    exact ⟨⟨h1, h2, h3, h4⟩, by omega⟩
  · have hnz : b.state.scrollIndex ≠ 0 := fun hz => hg (Or.inl hz)
    have hurl : jsTruthyStr b.state.currentUrl = true := by
      rcases hu : jsTruthyStr b.state.currentUrl
      · exact absurd (Or.inr hu) hg
      · rfl
    unfold scrollUp
    rw [if_neg hg]
    refine ⟨⟨h1, ?_, rfl, fun _ => hurl⟩, rfl⟩
    show b.state.scrollIndex - 1 < b.scrollStack.length
    omega

/-- scrollDown preserves the replay invariant and advances the index by at
most one. -/
theorem scrollDown_inv (img : String) (b : Browser) (env : GenEnv)
    (h : ScrollReplayInv img b) :
    ScrollReplayInv img (scrollDown b env).1 ∧
    (scrollDown b env).1.state.scrollIndex ≤ b.state.scrollIndex + 1 := by
  obtain ⟨h1, h2, h3, h4⟩ := h
  by_cases hg : jsTruthyStr b.state.currentUrl = false ∨ b.state.currentApiData = none
      ∨ jsTruthyStr b.state.currentImage = false
  · simp only [scrollDown, if_pos hg]
    exact ⟨⟨h1, h2, h3, h4⟩, by omega⟩
  · have hurl : jsTruthyStr b.state.currentUrl = true := by
      rcases hu : jsTruthyStr b.state.currentUrl
      · exact absurd (Or.inl hu) hg
      · rfl
    by_cases hlt : b.state.scrollIndex + 1 < b.scrollStack.length
    · simp only [scrollDown, if_neg hg, dif_pos hlt]
      exact ⟨⟨h1, hlt, (List.get?_eq_get hlt).symm, fun _ => hurl⟩, Nat.le_refl _⟩
    · simp only [scrollDown, if_neg hg, dif_neg hlt]
      have hlen : b.state.scrollIndex + 1 = b.scrollStack.length := by
        omega
      have hsb : (scrollDownGenBase b).scrollStack = b.scrollStack := rfl
      have hsi : (scrollDownGenBase b).state.scrollIndex = b.state.scrollIndex := rfl
      have hsc : (scrollDownGenBase b).state.currentImage = b.state.currentImage := rfl
      have hsu : (scrollDownGenBase b).state.currentUrl = b.state.currentUrl := rfl
      obtain ⟨hpa, hpb, _, _, _, _, _, hpi, _, hpc, hpu, _, _⟩ :=
        generatePageImage_preserves (scrollDownGenBase b)
          (b.state.currentApiData.getD (.rawData "")) env
      rcases hgr : (generatePageImage (scrollDownGenBase b)
          (b.state.currentApiData.getD (.rawData "")) env).result with m | image
      · refine ⟨⟨?_, ?_, ?_, ?_⟩, ?_⟩
        · rw [hpb, hsb]
          exact h1
        · rw [hpb, hsb, hpi, hsi]
          exact h2
        · rw [hpb, hsb, hpi, hsi, hpc, hsc]
          exact h3
        · rw [hpi, hsi, hpu, hsu]
          intro hpos
          exact hurl
        · rw [hpi, hsi]
          omega
      · refine ⟨⟨?_, ?_, ?_, ?_⟩, ?_⟩
        · rw [hpb, hsb]
          rcases hstack : b.scrollStack with _ | ⟨a, tl⟩
          · rw [hstack] at h2
            simp at h2
          · rw [hstack] at h1
            simp only [List.head?_cons, Option.some.injEq] at h1
            simp [h1]
        · rw [hpb, hsb]
          simp only [List.length_append, List.length_singleton]
          omega
        · rw [hpb, hsb, hlen]
          exact (List.get?_concat_length _ _).symm
        · rw [hpu, hsu]
          intro hpos
          exact hurl
        · exact Nat.le_refl _

/-- Iterated scrollDown preserves the replay invariant and advances the index
by at most the number of calls. -/
theorem scrollDownN_inv (img : String) (envs : List GenEnv) :
    ∀ b : Browser, ScrollReplayInv img b →
    ScrollReplayInv img (scrollDownN b envs) ∧
    (scrollDownN b envs).state.scrollIndex ≤ b.state.scrollIndex + envs.length := by
  induction envs with
  | nil =>
    intro b h
    exact ⟨h, by simp [scrollDownN]⟩
  | cons e es ih =>
    intro b h
    have h1 := scrollDown_inv img b e h
    have h2 := ih (scrollDown b e).1 h1.1
    have heq : scrollDownN b (e :: es) = scrollDownN (scrollDown b e).1 es := rfl
    rw [heq]
    refine ⟨h2.1, ?_⟩
    have ha := h1.2
    have hb := h2.2
    simp only [List.length_cons]
    omega

/-- Iterated scrollUp preserves the replay invariant and decrements the index
by the number of calls. -/
theorem scrollUpN_inv (img : String) (n : Nat) :
    ∀ b : Browser, ScrollReplayInv img b →
    ScrollReplayInv img (scrollUpN b n) ∧
    (scrollUpN b n).state.scrollIndex = b.state.scrollIndex - n := by
  induction n with
  | zero =>
    intro b h
    exact ⟨h, rfl⟩
  | succ k ih =>
    intro b h
    have h1 := scrollUp_inv img b h
    have h2 := ih (scrollUp b).1 h1.1
    refine ⟨h2.1, ?_⟩
    show (scrollUpN (scrollUp b).1 k).state.scrollIndex = b.state.scrollIndex - (k + 1)
    rw [h2.2, h1.2]
    omega

/-- C5: starting from a freshly loaded page, N scrollDown calls (any mix of
replays, generations and failures) followed by N scrollUp calls return to the
exact original image reference at scroll index 0; scrollUp never issues a
generation request, and a scrollDown replay of an index already in the stack
issues none either. -/
theorem c5_scroll_replay :
    (∀ (b : Browser) (img : String) (envs : List GenEnv),
      b.scrollStack = [img] → b.state.scrollIndex = 0 → b.state.currentImage = some img →
      ((scrollUpN (scrollDownN b envs) envs.length).state.scrollIndex = 0 ∧
       (scrollUpN (scrollDownN b envs) envs.length).state.currentImage = some img))
    ∧ (∀ b : Browser, (scrollUp b).2 = [])
    ∧ (∀ (b : Browser) (env : GenEnv),
        b.state.scrollIndex + 1 < b.scrollStack.length → (scrollDown b env).2 = []) := by
  refine ⟨fun b img envs hstack hidx himg => ?_, fun b => ?_, fun b env hlt => ?_⟩
  · have hinv : ScrollReplayInv img b := by
      refine ⟨?_, ?_, ?_, ?_⟩
      · rw [hstack]
        rfl
      · rw [hstack, hidx]
        simp
      · rw [himg, hidx, hstack]
        rfl
      · intro hpos
        rw [hidx] at hpos
        exact absurd hpos (lt_irrefl 0)
    have hd := scrollDownN_inv img envs b hinv
    have hu := scrollUpN_inv img envs.length (scrollDownN b envs) hd.1
    have hidx0 : (scrollUpN (scrollDownN b envs) envs.length).state.scrollIndex = 0 := by
      rw [hu.2]
      have hbound := hd.2
      rw [hidx] at hbound
      omega
    refine ⟨hidx0, ?_⟩
    have h3 := hu.1.2.2.1
    rw [hidx0] at h3
    rw [h3, List.get?_zero]
    exact hu.1.1
  · unfold scrollUp
    split <;> rfl
  · unfold scrollDown
    by_cases hg : jsTruthyStr b.state.currentUrl = false ∨ b.state.currentApiData = none
        ∨ jsTruthyStr b.state.currentImage = false
    · rw [if_pos hg]
    · rw [if_neg hg, dif_pos hlt]

/-- C5 witness: two scrollDowns (one succeeding, one failing) and two
scrollUps from a loaded page restore index 0 and the original image, and a
replay scrollDown on a deep stack issues no generation request. -/
theorem c5_scroll_replay_witness :
    ((scrollUpN (scrollDownN browserWithPage [genEnvOk, genEnvNoImage]) 2).state.scrollIndex = 0 ∧
     (scrollUpN (scrollDownN browserWithPage [genEnvOk, genEnvNoImage]) 2).state.currentImage
       = some "data:image/png;base64,AAA")
    ∧ (scrollDown { browserWithPage with scrollStack := ["a", "b", "c"] } genEnvOk).2 = [] :=
  ⟨c5_scroll_replay.1 browserWithPage "data:image/png;base64,AAA" [genEnvOk, genEnvNoImage]
      (by decide) (by decide) (by decide),
   c5_scroll_replay.2.2 { browserWithPage with scrollStack := ["a", "b", "c"] } genEnvOk
      (by decide)⟩

/-! ## C1: the scroll invariant -/

/-- Every successful navigate establishes the scroll invariant. -/
theorem scrollInv_navigate_success (b : Browser) (url : String) (fresh : Bool) (env : NavEnv)
    (h : (navigate b url fresh env).1.state.error = none) :
    ScrollInv (navigate b url fresh env).1 := by
  rcases hl : cacheLookup (freshClear b fresh).imageCache
      (navCacheKey (freshClear b fresh) url) with _ | e
  · simp only [navigate, hl] at h ⊢
    rcases hf : env.fetchResult with m | d
    · simp only [navigateMiss, hf] at h
      obtain ⟨e', he'⟩ := navigateErrorStep_error_isSome (navigateLoading (freshClear b fresh) url) m
      rw [he'] at h
      cases h
    · set bm : Browser := navigateGenerating (navigateLoading (freshClear b fresh) url) d with hbm
      rcases hg : (generatePageImage bm d env.gen).result with m | img
      · simp only [navigateMiss, hf, ← hbm, hg] at h
        obtain ⟨e', he'⟩ := navigateErrorStep_error_isSome
          (generatePageImage bm d env.gen).browser m
        rw [he'] at h
        cases h
      · simp only [navigateMiss, hf, ← hbm, hg]
        exact ⟨Nat.zero_lt_one, rfl⟩
  · simp only [navigate, hl]
    exact ⟨Nat.zero_lt_one, rfl⟩

/-- A non-fresh navigate preserves the scroll invariant on every path. -/
theorem scrollInv_navigate_nonfresh (b : Browser) (url : String) (env : NavEnv)
    (h : ScrollInv b) : ScrollInv (navigate b url false env).1 := by
  have hfc : freshClear b false = b := rfl
  rcases hl : cacheLookup b.imageCache (navCacheKey b url) with _ | e
  · simp only [navigate, hfc, hl]
    rcases hf : env.fetchResult with m | d
    · simp only [navigateMiss, hf]
      obtain ⟨_, e2, _, _, e5, e6, _⟩ := navigateErrorStep_fields (navigateLoading b url) m
      refine ⟨?_, ?_⟩
      · rw [e5, e6]
        exact h.1
      · rw [e6, e2]
        exact h.2
    · set bm : Browser := navigateGenerating (navigateLoading b url) d with hbm
      rcases hg : (generatePageImage bm d env.gen).result with m | img
      · simp only [navigateMiss, hf, ← hbm, hg]
        obtain ⟨_, e2, _, _, e5, e6, _⟩ := navigateErrorStep_fields
          (generatePageImage bm d env.gen).browser m
        obtain ⟨_, p2, _, _, _, _, _, p8, p9, _, _, _, _⟩ := generatePageImage_preserves bm d env.gen
        refine ⟨?_, ?_⟩
        · rw [e5, e6, p8, p9]
          exact h.1
        · rw [e6, e2, p9, p2]
          exact h.2
      · simp only [navigateMiss, hf, ← hbm, hg]
        exact ⟨Nat.zero_lt_one, rfl⟩
  · simp only [navigate, hfc, hl]
    exact ⟨Nat.zero_lt_one, rfl⟩

/-- goBack preserves the scroll invariant (and re-establishes it in bounds). -/
theorem scrollInv_goBack (b : Browser) (h : ScrollInv b) : ScrollInv (goBack b) := by
  unfold goBack
  by_cases hc : 0 < b.historyIndex
  · rw [if_pos hc]
    rcases hs : b.history.get? (b.historyIndex - 1).toNat with _ | e
    · exact h
    · exact ⟨Nat.zero_lt_one, rfl⟩
  · rw [if_neg hc]
    exact h

/-- An in-bounds goBack establishes the scroll invariant unconditionally. -/
theorem scrollInv_goBack_estab (b : Browser) (e : HistoryEntry) (hc : 0 < b.historyIndex)
    (hs : b.history.get? (b.historyIndex - 1).toNat = some e) : ScrollInv (goBack b) := by
  unfold goBack
  rw [if_pos hc, hs]
  exact ⟨Nat.zero_lt_one, rfl⟩

/-- goForward preserves the scroll invariant. -/
theorem scrollInv_goForward (b : Browser) (h : ScrollInv b) : ScrollInv (goForward b) := by
  unfold goForward
  by_cases hc : b.historyIndex < (b.history.length : Int) - 1
  · rw [if_pos hc]
    rcases hs : b.history.get? (b.historyIndex + 1).toNat with _ | e
    · exact h
    · exact ⟨Nat.zero_lt_one, rfl⟩
  · rw [if_neg hc]
    exact h

/-- An in-bounds goForward establishes the scroll invariant unconditionally. -/
theorem scrollInv_goForward_estab (b : Browser) (e : HistoryEntry)
    (hc : b.historyIndex < (b.history.length : Int) - 1)
    (hs : b.history.get? (b.historyIndex + 1).toNat = some e) : ScrollInv (goForward b) := by
  unfold goForward
  rw [if_pos hc, hs]
  exact ⟨Nat.zero_lt_one, rfl⟩

/-- scrollUp preserves the scroll invariant. -/
theorem scrollInv_scrollUp (b : Browser) (h : ScrollInv b) : ScrollInv (scrollUp b).1 := by
  unfold scrollUp
  by_cases hg : b.state.scrollIndex = 0 ∨ jsTruthyStr b.state.currentUrl = false
  · rw [if_pos hg]
    exact h
  · rw [if_neg hg]
    refine ⟨?_, h.2⟩
    show b.state.scrollIndex - 1 < b.state.scrollDepth
    have h1 := h.1
    omega

/-- scrollDown preserves the scroll invariant on every path. -/
theorem scrollInv_scrollDown (b : Browser) (env : GenEnv) (h : ScrollInv b) :
    ScrollInv (scrollDown b env).1 := by
  by_cases hg : jsTruthyStr b.state.currentUrl = false ∨ b.state.currentApiData = none
      ∨ jsTruthyStr b.state.currentImage = false
  · simp only [scrollDown, if_pos hg]
    exact h
  · by_cases hlt : b.state.scrollIndex + 1 < b.scrollStack.length
    · simp only [scrollDown, if_neg hg, dif_pos hlt]
      refine ⟨?_, h.2⟩
      show b.state.scrollIndex + 1 < b.state.scrollDepth
      have h2 := h.2
      omega
    · simp only [scrollDown, if_neg hg, dif_neg hlt]
      obtain ⟨_, p2, _, _, _, _, _, p8, p9, _, _, _, _⟩ :=
        generatePageImage_preserves (scrollDownGenBase b)
          (b.state.currentApiData.getD (.rawData "")) env
      have hsb : (scrollDownGenBase b).scrollStack = b.scrollStack := rfl
      rcases hgr : (generatePageImage (scrollDownGenBase b)
          (b.state.currentApiData.getD (.rawData "")) env).result with m | image
      · refine ⟨?_, ?_⟩
        · rw [p8, p9]
          exact h.1
        · rw [p9, p2]
          exact h.2
      · refine ⟨?_, rfl⟩
        rw [p2, hsb]
        show b.state.scrollIndex + 1 < (b.scrollStack ++ [image]).length
        simp only [List.length_append, List.length_singleton]
        have h1 := h.1
        have h2 := h.2
        omega

/-- rerender preserves the scroll invariant on every path. -/
theorem scrollInv_rerender (b : Browser) (env : GenEnv) (h : ScrollInv b) :
    ScrollInv (rerender b env).1 := by
  by_cases hg : jsTruthyStr b.state.currentUrl = false ∨ b.state.currentApiData = none
  · simp only [rerender, if_pos hg]
    exact h
  · simp only [rerender, if_neg hg]
    obtain ⟨_, p2, _, _, _, _, _, p8, p9, _, _, _, _⟩ :=
      generatePageImage_preserves (rerenderLoading b)
        (b.state.currentApiData.getD (.rawData "")) env
    rcases hgr : (generatePageImage (rerenderLoading b)
        (b.state.currentApiData.getD (.rawData "")) env).result with m | image
    · refine ⟨?_, ?_⟩
      · rw [p8, p9]
        exact h.1
      · rw [p9, p2]
        exact h.2
    · exact ⟨Nat.zero_lt_one, rfl⟩

/-- A rerender whose generation succeeds establishes the scroll invariant. -/
theorem scrollInv_rerender_ok (b : Browser) (env : GenEnv) (d : ApiData) (img : String)
    (hu : jsTruthyStr b.state.currentUrl = true) (hd : b.state.currentApiData = some d)
    (hok : (generatePageImage (rerenderLoading b) d env).result = .ok img) :
    ScrollInv (rerender b env).1 := by
  have hguard : ¬(jsTruthyStr b.state.currentUrl = false ∨ b.state.currentApiData = none) := by
    rw [hu, hd]
    simp
  have hgetD : b.state.currentApiData.getD (.rawData "") = d := by
    rw [hd]
    rfl
  simp only [rerender, if_neg hguard, hgetD, hok]
  exact ⟨Nat.zero_lt_one, rfl⟩

/-- handleClick preserves the scroll invariant on every path. -/
theorem scrollInv_handleClick (b : Browser) (x y : Nat)
    (interp : Except String InterpretOutcome) (nav : NavEnv) (h : ScrollInv b) :
    ScrollInv (handleClick b x y interp nav).1 := by
  by_cases hg : jsTruthyStr b.state.currentImage = false ∨ b.state.currentApiData = none
  · simp only [handleClick, if_pos hg]
    exact h
  · simp only [handleClick, if_neg hg]
    rcases interp with m | r
    · exact h
    · by_cases hcond : r.action = some "navigate" ∧ jsTruthyStr r.url = true
      · simp only [if_pos hcond]
        exact scrollInv_navigate_nonfresh _ (r.url.getD "") nav h
      · simp only [if_neg hcond]
        by_cases hn : r.action = some "none"
        · simp only [if_pos hn]
          exact h
        · simp only [if_neg hn]
          exact h

/-- C1 (amended): the invariant scrollIndex < scrollDepth with scrollDepth =
scrollStack.length is established by every successful navigate, every
in-bounds goBack/goForward and every rerender whose generation succeeds, and
is preserved by non-fresh navigate, goBack, goForward, scrollUp, scrollDown,
rerender and handleClick on all their paths, including error paths.  It does
NOT hold at the initial state nor after a failed freshStart navigate (see the
counterexample theorem). -/
theorem c1_scroll_invariant_amended :
    (∀ (b : Browser) (url : String) (fresh : Bool) (env : NavEnv),
      (navigate b url fresh env).1.state.error = none → ScrollInv (navigate b url fresh env).1)
    ∧ (∀ (b : Browser) (url : String) (env : NavEnv),
      ScrollInv b → ScrollInv (navigate b url false env).1)
    ∧ (∀ b : Browser, ScrollInv b → ScrollInv (goBack b))
    ∧ (∀ (b : Browser) (e : HistoryEntry), 0 < b.historyIndex →
      b.history.get? (b.historyIndex - 1).toNat = some e → ScrollInv (goBack b))
    ∧ (∀ b : Browser, ScrollInv b → ScrollInv (goForward b))
    ∧ (∀ (b : Browser) (e : HistoryEntry), b.historyIndex < (b.history.length : Int) - 1 →
      b.history.get? (b.historyIndex + 1).toNat = some e → ScrollInv (goForward b))
    ∧ (∀ b : Browser, ScrollInv b → ScrollInv (scrollUp b).1)
    ∧ (∀ (b : Browser) (env : GenEnv), ScrollInv b → ScrollInv (scrollDown b env).1)
    ∧ (∀ (b : Browser) (env : GenEnv), ScrollInv b → ScrollInv (rerender b env).1)
    ∧ (∀ (b : Browser) (env : GenEnv) (d : ApiData) (img : String),
      jsTruthyStr b.state.currentUrl = true → b.state.currentApiData = some d →
      (generatePageImage (rerenderLoading b) d env).result = .ok img →
      ScrollInv (rerender b env).1)
    ∧ (∀ (b : Browser) (x y : Nat) (interp : Except String InterpretOutcome) (nav : NavEnv),
      ScrollInv b → ScrollInv (handleClick b x y interp nav).1) :=
  ⟨scrollInv_navigate_success, scrollInv_navigate_nonfresh, scrollInv_goBack,
   scrollInv_goBack_estab, scrollInv_goForward, scrollInv_goForward_estab,
   scrollInv_scrollUp, scrollInv_scrollDown, scrollInv_rerender,
   scrollInv_rerender_ok, scrollInv_handleClick⟩

/-- C1 witness: the invariant after a concrete successful navigate and its
preservation across a concrete scrollUp. -/
theorem c1_scroll_invariant_amended_witness :
    ScrollInv (navigate browserEx "https://u1" true navEnvOk).1
    ∧ ScrollInv (scrollUp browserWithPage).1 :=
  ⟨c1_scroll_invariant_amended.1 browserEx "https://u1" true navEnvOk (by decide),
   c1_scroll_invariant_amended.2.2.2.2.2.2.1 browserWithPage ⟨by decide, by decide⟩⟩

/-- C1 counterexample to the claim as stated: the initial state has
scrollDepth 1 with an empty scroll stack; after a successful navigate followed
by a failed freshStart navigate (a completed navigate error path) the stack is
empty while scrollDepth is still 1; and a subsequent successful scrollDown
yields scrollIndex = scrollDepth, violating the strict inequality. -/
theorem c1_scroll_invariant_counterexample :
    (browserEx.state.scrollDepth = 1 ∧ browserEx.scrollStack.length = 0)
    ∧ ((navigate (navigate browserEx "https://u1" true navEnvOk).1 "https://u2" true
          navEnvFetchFail).1.state.scrollDepth = 1
       ∧ (navigate (navigate browserEx "https://u1" true navEnvOk).1 "https://u2" true
          navEnvFetchFail).1.scrollStack = [])
    ∧ ((scrollDown (navigate (navigate browserEx "https://u1" true navEnvOk).1 "https://u2" true
          navEnvFetchFail).1 genEnvOk).1.state.scrollIndex = 1
       ∧ (scrollDown (navigate (navigate browserEx "https://u1" true navEnvOk).1 "https://u2" true
          navEnvFetchFail).1 genEnvOk).1.state.scrollDepth = 1) := by
  refine ⟨⟨rfl, rfl⟩, ⟨?_, ?_⟩, ⟨?_, ?_⟩⟩ <;> decide

/-- C3 witness: a 25-id listing yields 15 stories with template locators; a
story with 25 kids yields 10 comments. -/
theorem c3_hn_caps_and_locators_witness :
    (fetchHackerNews (List.range 25)
        (fun i => some ⟨some i, some "t", none, some "a", some 1, some 2, none, none⟩)).stories.length ≤ 15
    ∧ ((fetchHackerNews (List.range 25)
        (fun i => some ⟨some i, some "t", none, some "a", some 1, some 2, none, none⟩)).stories.all
        (fun st => st.apiUrl ==
          "https://hacker-news.firebaseio.com/v0/item/" ++ toString st.id ++ ".json") = true)
    ∧ (fetchHackerNewsItem ⟨some 7, some "t", none, some "a", some 1, none, some (List.range 25), none⟩
        (fun i => some ⟨some i, some "c", some "text", none, none⟩)).comments.length ≤ 10 := by
  refine ⟨c3_hn_caps_and_locators.1 _ _ (by decide), ?_, c3_hn_caps_and_locators.2.2 _ _ (by decide)⟩
  rw [List.all_eq_true]
  intro st hst
  have := c3_hn_caps_and_locators.2.1 _ _ st hst (fun i r hr => by
    simp only [Option.some.injEq] at hr
    subst hr
    rfl)
  simp [this]

/-! ## C8: interpretClick response parsing -/

theorem string_mk_data (s : String) : String.mk s.data = s := by
  cases s
  rfl

theorem strBody_clean (u rest : List Char)
    (h : ∀ c ∈ u, c ≠ '"' ∧ c ≠ '\\' ∧ 32 ≤ c.toNat) :
    strBody (u ++ '"' :: rest) = some (u, rest) := by
  induction u with
  | nil =>
    rw [List.nil_append, strBody.eq_def]
    simp
  | cons c cs ih =>
    obtain ⟨h1, h2, h3⟩ := h c (List.mem_cons_self c cs)
    have ih' := ih fun x hx => h x (List.mem_cons_of_mem c hx)
    rw [List.cons_append, strBody.eq_def]
    simp only [if_neg h1, if_neg h2, if_neg (by omega : ¬ c.toNat < 32), ih']
    rfl

theorem parseVal_strField (n : Nat) (url : String)
    (h : ∀ c ∈ url.data, c ≠ '"' ∧ c ≠ '\\' ∧ 32 ≤ c.toNat) :
    parseVal (n + 1) (' ' :: '"' :: (url.data ++ ['"', '\x7d'])) =
      some (.str url, ['\x7d']) := by
  rw [parseVal.eq_def]
  simp [skipWs, isJsonWs, strBody_clean url.data ['\x7d'] h, string_mk_data]

theorem parseObjItems_urlMember (n : Nat) (url : String)
    (h : ∀ c ∈ url.data, c ≠ '"' ∧ c ≠ '\\' ∧ 32 ≤ c.toNat) :
    parseObjItems (n + 2)
        (' ' :: '"' :: 'u' :: 'r' :: 'l' :: '"' :: ':' :: ' ' :: '"' :: (url.data ++ ['"', '\x7d'])) =
      some ([("url", .str url)], []) := by
  have hkey : strBody ('u' :: 'r' :: 'l' :: '"' :: ':' :: ' ' :: '"' :: (url.data ++ ['"', '\x7d']))
      = some (['u', 'r', 'l'], ':' :: ' ' :: '"' :: (url.data ++ ['"', '\x7d'])) :=
    strBody_clean ['u', 'r', 'l'] _ (by decide)
  rw [parseObjItems.eq_def]
  simp [skipWs, isJsonWs, hkey, parseVal_strField n url h]

theorem parseVal_strLit (n : Nat) (w rest : List Char)
    (h : ∀ c ∈ w, c ≠ '"' ∧ c ≠ '\\' ∧ 32 ≤ c.toNat) :
    parseVal (n + 1) (' ' :: '"' :: (w ++ '"' :: rest)) =
      some (.str (String.mk w), rest) := by
  rw [parseVal.eq_def]
  simp [skipWs, isJsonWs, strBody_clean w rest h]

theorem parseObjItems_full (n : Nat) (url : String)
    (h : ∀ c ∈ url.data, c ≠ '"' ∧ c ≠ '\\' ∧ 32 ≤ c.toNat) :
    parseObjItems (n + 4)
        ('"' :: 'a' :: 'c' :: 't' :: 'i' :: 'o' :: 'n' :: '"' :: ':' :: ' ' :: '"' ::
         'n' :: 'a' :: 'v' :: 'i' :: 'g' :: 'a' :: 't' :: 'e' :: '"' :: ',' :: ' ' :: '"' ::
         'u' :: 'r' :: 'l' :: '"' :: ':' :: ' ' :: '"' :: (url.data ++ ['"', '\x7d'])) =
      some ([("action", .str "navigate"), ("url", .str url)], []) := by
  have hkey2 : strBody ('a' :: 'c' :: 't' :: 'i' :: 'o' :: 'n' :: '"' :: ':' :: ' ' :: '"' ::
      'n' :: 'a' :: 'v' :: 'i' :: 'g' :: 'a' :: 't' :: 'e' :: '"' :: ',' :: ' ' :: '"' ::
      'u' :: 'r' :: 'l' :: '"' :: ':' :: ' ' :: '"' :: (url.data ++ ['"', '\x7d'])) =
      some (['a', 'c', 't', 'i', 'o', 'n'],
        ':' :: ' ' :: '"' :: 'n' :: 'a' :: 'v' :: 'i' :: 'g' :: 'a' :: 't' :: 'e' :: '"' ::
        ',' :: ' ' :: '"' :: 'u' :: 'r' :: 'l' :: '"' :: ':' :: ' ' :: '"' ::
        (url.data ++ ['"', '\x7d'])) :=
    strBody_clean ['a', 'c', 't', 'i', 'o', 'n'] _ (by decide)
  have hval : parseVal (n + 3) (' ' :: '"' :: 'n' :: 'a' :: 'v' :: 'i' :: 'g' :: 'a' :: 't' :: 'e' :: '"' ::
      ',' :: ' ' :: '"' :: 'u' :: 'r' :: 'l' :: '"' :: ':' :: ' ' :: '"' ::
      (url.data ++ ['"', '\x7d'])) =
      some (.str "navigate",
        ',' :: ' ' :: '"' :: 'u' :: 'r' :: 'l' :: '"' :: ':' :: ' ' :: '"' ::
        (url.data ++ ['"', '\x7d'])) :=
    parseVal_strLit (n + 2) ['n', 'a', 'v', 'i', 'g', 'a', 't', 'e'] _ (by decide)
  have hurl : parseObjItems (n + 3)
      (' ' :: '"' :: 'u' :: 'r' :: 'l' :: '"' :: ':' :: ' ' :: '"' :: (url.data ++ ['"', '\x7d'])) =
      some ([("url", .str url)], []) := parseObjItems_urlMember (n + 1) url h
  rw [parseObjItems.eq_def]
  simp [skipWs, isJsonWs, hkey2, hval, hurl]

theorem parseVal_navObj (n : Nat) (url : String)
    (h : ∀ c ∈ url.data, c ≠ '"' ∧ c ≠ '\\' ∧ 32 ≤ c.toNat) :
    parseVal (n + 5)
        ('\x7b' :: '"' :: 'a' :: 'c' :: 't' :: 'i' :: 'o' :: 'n' :: '"' :: ':' :: ' ' :: '"' ::
         'n' :: 'a' :: 'v' :: 'i' :: 'g' :: 'a' :: 't' :: 'e' :: '"' :: ',' :: ' ' :: '"' ::
         'u' :: 'r' :: 'l' :: '"' :: ':' :: ' ' :: '"' :: (url.data ++ ['"', '\x7d'])) =
      some (.obj [("action", .str "navigate"), ("url", .str url)], []) := by
  rw [parseVal.eq_def]
  simp [skipWs, isJsonWs, parseObjItems_full n url h]

theorem navDecisionText_data (url : String) :
    (navDecisionText url).data =
      '\x7b' :: '"' :: 'a' :: 'c' :: 't' :: 'i' :: 'o' :: 'n' :: '"' :: ':' :: ' ' :: '"' ::
      'n' :: 'a' :: 'v' :: 'i' :: 'g' :: 'a' :: 't' :: 'e' :: '"' :: ',' :: ' ' :: '"' ::
      'u' :: 'r' :: 'l' :: '"' :: ':' :: ' ' :: '"' :: (url.data ++ ['"', '\x7d']) := by
  cases url with
  | mk d => rfl

theorem parseJsonText_navDecision (url : String)
    (h : ∀ c ∈ url.data, c ≠ '"' ∧ c ≠ '\\' ∧ 32 ≤ c.toNat) :
    parseJsonText (navDecisionText url) =
      some (.obj [("action", .str "navigate"), ("url", .str url)]) := by
  have hdata := navDecisionText_data url
  have hV : parseVal ((navDecisionText url).data.length + 1) (navDecisionText url).data =
      some (.obj [("action", .str "navigate"), ("url", .str url)], []) := by
    rw [hdata]
    have hl : ('\x7b' :: '"' :: 'a' :: 'c' :: 't' :: 'i' :: 'o' :: 'n' :: '"' :: ':' :: ' ' :: '"' ::
        'n' :: 'a' :: 'v' :: 'i' :: 'g' :: 'a' :: 't' :: 'e' :: '"' :: ',' :: ' ' :: '"' ::
        'u' :: 'r' :: 'l' :: '"' :: ':' :: ' ' :: '"' ::
        (url.data ++ ['"', '\x7d'])).length + 1 = (url.data.length + 29) + 5 := by
      simp [List.length_cons, List.length_append]
    rw [hl]
    exact parseVal_navObj (url.data.length + 29) url h
  simp only [parseJsonText, hV]
  simp [skipWs]

theorem dropWhile_append_all (p : Char → Bool) (l1 l2 : List Char)
    (h : ∀ c ∈ l1, p c = true) :
    (l1 ++ l2).dropWhile p = l2.dropWhile p := by
  induction l1 with
  | nil => rfl
  | cons c cs ih =>
    rw [List.cons_append, List.dropWhile_cons]
    simp only [h c (List.mem_cons_self c cs), if_true]
    exact ih fun x hx => h x (List.mem_cons_of_mem c hx)

theorem jsonSpan_step (t : String) (br : Char) (u : List Char)
    (hd : t.data.dropWhile (· ≠ '\x7b') = br :: u) :
    jsonSpan t =
      if '\x7d' ∈ u then
        some (String.mk (br :: (u.reverse.dropWhile (· ≠ '\x7d')).reverse))
      else none := by
  unfold jsonSpan
  rw [hd]

theorem dropWhile_reverse_last (p : Char → Bool) (w : List Char) (a : Char)
    (hp : p a = false) :
    ((w ++ [a]).reverse.dropWhile p).reverse = w ++ [a] := by
  rw [List.reverse_append]
  simp [List.dropWhile_cons, hp]

theorem jsonSpan_prose (prose url : String) (hp : '\x7b' ∉ prose.data) :
    jsonSpan (prose ++ navDecisionText url) = some (navDecisionText url) := by
  have hdata : (prose ++ navDecisionText url).data = prose.data ++ (navDecisionText url).data := by
    cases prose with
    | mk d =>
      cases h : navDecisionText url with
      | mk e => rfl
  have hdropall : (prose ++ navDecisionText url).data.dropWhile (· ≠ '\x7b') =
      '\x7b' :: ('"' :: 'a' :: 'c' :: 't' :: 'i' :: 'o' :: 'n' :: '"' :: ':' :: ' ' :: '"' ::
      'n' :: 'a' :: 'v' :: 'i' :: 'g' :: 'a' :: 't' :: 'e' :: '"' :: ',' :: ' ' :: '"' ::
      'u' :: 'r' :: 'l' :: '"' :: ':' :: ' ' :: '"' :: (url.data ++ ['"', '\x7d'])) := by
    rw [hdata]
    rw [dropWhile_append_all _ _ _ fun c hc => by
      simp only [decide_eq_true_eq]
      intro heq
      exact hp (heq ▸ hc)]
    rw [navDecisionText_data, List.dropWhile_cons]
    simp
  rw [jsonSpan_step _ _ _ hdropall]
  have hmem : '\x7d' ∈ ('"' :: 'a' :: 'c' :: 't' :: 'i' :: 'o' :: 'n' :: '"' :: ':' :: ' ' :: '"' ::
      'n' :: 'a' :: 'v' :: 'i' :: 'g' :: 'a' :: 't' :: 'e' :: '"' :: ',' :: ' ' :: '"' ::
      'u' :: 'r' :: 'l' :: '"' :: ':' :: ' ' :: '"' :: (url.data ++ ['"', '\x7d'])) := by
    simp
  rw [if_pos hmem]
  have hU : ('"' :: 'a' :: 'c' :: 't' :: 'i' :: 'o' :: 'n' :: '"' :: ':' :: ' ' :: '"' ::
      'n' :: 'a' :: 'v' :: 'i' :: 'g' :: 'a' :: 't' :: 'e' :: '"' :: ',' :: ' ' :: '"' ::
      'u' :: 'r' :: 'l' :: '"' :: ':' :: ' ' :: '"' :: (url.data ++ ['"', '\x7d'])) =
      ('"' :: 'a' :: 'c' :: 't' :: 'i' :: 'o' :: 'n' :: '"' :: ':' :: ' ' :: '"' ::
      'n' :: 'a' :: 'v' :: 'i' :: 'g' :: 'a' :: 't' :: 'e' :: '"' :: ',' :: ' ' :: '"' ::
      'u' :: 'r' :: 'l' :: '"' :: ':' :: ' ' :: '"' :: (url.data ++ ['"'])) ++ ['\x7d'] := by
    simp
  rw [hU, dropWhile_reverse_last _ _ _ (by simp), ← hU, ← navDecisionText_data url, string_mk_data]

/-- C8. interpretClick response parsing: when the raw text has no JSON object
span, or the extracted span fails to parse, the decision degrades to
action "none" / reason "Could not interpret click" (no error reaches the
caller, the parse being a total function); and when the text is brace-free
prose followed by a trailing JSON navigate decision, that object is extracted
and returned as the decision. -/
theorem c8_click_parse :
    (∀ text img : String, jsonSpan text = none →
        interpretParse text img =
          { action := some "none", url := none,
            reason := some "Could not interpret click", imageWithPointer := some img })
    ∧ (∀ text span img : String, jsonSpan text = some span → parseJsonText span = none →
        interpretParse text img =
          { action := some "none", url := none,
            reason := some "Could not interpret click", imageWithPointer := some img })
    ∧ (∀ prose url img : String, '\x7b' ∉ prose.data →
        (∀ c ∈ url.data, c ≠ '"' ∧ c ≠ '\\' ∧ 32 ≤ c.toNat) →
        interpretParse (prose ++ navDecisionText url) img =
          { action := some "navigate", url := some url,
            reason := none, imageWithPointer := some img }) := by
  refine ⟨?_, ?_, ?_⟩
  · intro text img h
    simp only [interpretParse, h, noneFallbackOutcome]
  · intro text span img h1 h2
    simp only [interpretParse, h1, h2, noneFallbackOutcome]
  · intro prose url img hp hc
    simp only [interpretParse, jsonSpan_prose prose url hp, parseJsonText_navDecision url hc]
    simp [jsGetStr, List.lookup]

theorem c8_click_parse_witness :
    (interpretParse "no json at all" "IMG" =
      { action := some "none", url := none,
        reason := some "Could not interpret click", imageWithPointer := some "IMG" })
    ∧ (interpretParse "\x7bbad\x7d" "IMG" =
      { action := some "none", url := none,
        reason := some "Could not interpret click", imageWithPointer := some "IMG" })
    ∧ (interpretParse ("I will navigate there. " ++ navDecisionText "https://news.ycombinator.com") "IMG" =
      { action := some "navigate", url := some "https://news.ycombinator.com",
        reason := none, imageWithPointer := some "IMG" }) :=
  ⟨c8_click_parse.1 "no json at all" "IMG" (by decide),
   c8_click_parse.2.1 "\x7bbad\x7d" "\x7bbad\x7d" "IMG" (by decide) (by rfl),
   c8_click_parse.2.2 "I will navigate there. " "https://news.ycombinator.com" "IMG"
     (by decide) (by decide)⟩

end BananaSpec
